import Mathlib

/-!
Verification of the tv7-js DX7 FM synthesis engine.

JavaScript source files are shallowly embedded: IEEE-754 double arithmetic
is modelled as exact rational arithmetic over ℚ, 32-bit unsigned phase
accumulators as ℕ with explicit reduction modulo 2^32, and byte buffers as
lists of ℕ.  Two pieces of the repository are not present in its source
tree and are therefore modelled from the spec: the 513-entry sine table
(sine_lut.js) appears as an abstract table parameter `lutSine : ℕ → ℚ`,
and the PRNG behind getFloat (stmlib/random.js) appears as an explicit
stream `prng : ℕ → ℚ` with a draw counter.  Calls to the library exponent
Math.pow(2, x) are modelled by an abstract parameter `pw : ℚ → ℚ`, a fixed
but unspecified function, since their values are irrational in general.
-/

namespace Tv7

/-- JavaScript ToUint32 truncation toward zero of a double, before the
modulo-2^32 reduction. -/
def jsTrunc (q : ℚ) : ℤ :=
  if q < 0 then ⌈q⌉ else ⌊q⌋

/-- JavaScript ToUint32: truncate toward zero, then reduce modulo 2^32.
This is the semantics of the source idiom `x >>> 0` on a double. -/
def jsToUint32 (q : ℚ) : ℕ :=
  (jsTrunc q % 4294967296).toNat

/-! ### Patch data model (fm/patch.js) -/

/-- DX7 envelope parameters (4-stage), from patch.js OpEnvelope. -/
structure OpEnvelope where
  rate : List ℕ
  level : List ℕ
  deriving Repr, DecidableEq

/-- Pitch envelope parameters, from patch.js PitchEnvelope. -/
structure PitchEnvelopeParams where
  rate : List ℕ
  level : List ℕ
  deriving Repr, DecidableEq

/-- Keyboard scaling parameters, from patch.js KeyboardScaling. -/
structure KeyboardScaling where
  breakPoint : ℕ
  leftDepth : ℕ
  rightDepth : ℕ
  leftCurve : ℕ
  rightCurve : ℕ
  deriving Repr, DecidableEq

/-- DX7 operator parameters, from patch.js Operator (renamed: the runtime
oscillator state of operator.js is also called Operator there). -/
structure PatchOperator where
  envelope : OpEnvelope
  keyboardScaling : KeyboardScaling
  rateScaling : ℕ
  ampModSensitivity : ℕ
  velocitySensitivity : ℕ
  level : ℕ
  mode : ℕ
  coarse : ℕ
  fine : ℕ
  detune : ℕ
  deriving Repr, DecidableEq

/-- LFO modulation parameters, from patch.js ModulationParameters. -/
structure ModulationParameters where
  rate : ℕ
  delay : ℕ
  pitchModDepth : ℕ
  ampModDepth : ℕ
  resetPhase : ℕ
  waveform : ℕ
  pitchModSensitivity : ℕ
  deriving Repr, DecidableEq

/-- Complete DX7 patch, from patch.js Patch. -/
structure Patch where
  op : List PatchOperator
  pitchEnvelope : PitchEnvelopeParams
  algorithm : ℕ
  feedback : ℕ
  resetPhase : ℕ
  modulations : ModulationParameters
  transpose : ℕ
  name : List ℕ
  activeOperators : ℕ
  deriving Repr, DecidableEq

/-- Defaults of the patch.js constructors. -/
def OpEnvelope.default : OpEnvelope :=
  { rate := [99, 99, 99, 99], level := [99, 99, 99, 0] }

def PitchEnvelopeParams.default : PitchEnvelopeParams :=
  { rate := [99, 99, 99, 99], level := [50, 50, 50, 50] }

def KeyboardScaling.default : KeyboardScaling :=
  { breakPoint := 0, leftDepth := 0, rightDepth := 0, leftCurve := 0, rightCurve := 0 }

def PatchOperator.default : PatchOperator :=
  { envelope := OpEnvelope.default, keyboardScaling := KeyboardScaling.default,
    rateScaling := 0, ampModSensitivity := 0, velocitySensitivity := 0,
    level := 0, mode := 0, coarse := 0, fine := 0, detune := 0 }

def ModulationParameters.default : ModulationParameters :=
  { rate := 0, delay := 0, pitchModDepth := 0, ampModDepth := 0,
    resetPhase := 0, waveform := 0, pitchModSensitivity := 0 }

def Patch.default : Patch :=
  { op := List.replicate 6 PatchOperator.default,
    pitchEnvelope := PitchEnvelopeParams.default,
    algorithm := 31, feedback := 0, resetPhase := 0,
    modulations := ModulationParameters.default,
    transpose := 0, name := List.replicate 10 32, activeOperators := 0x3f }

/-! ### Unit conversions (fm/dx_units.js) -/

/-- Coarse frequency lookup table (in semitones). -/
def LUT_COARSE : List ℚ :=
  [-12.000000, 0.000000, 12.000000, 19.019550, 24.000000, 27.863137,
   31.019550, 33.688259, 36.000000, 38.039100, 39.863137, 41.513180,
   43.019550, 44.405276, 45.688259, 46.882687, 48.000000, 49.049554,
   50.039100, 50.975130, 51.863137, 52.707809, 53.513180, 54.282743,
   55.019550, 55.726274, 56.405276, 57.058650, 57.688259, 58.295772,
   58.882687, 59.450356]

/-- Amplitude modulation sensitivity lookup table. -/
def LUT_AMP_MOD_SENSITIVITY : List ℚ := [0.0, 0.2588, 0.4274, 1.0]

/-- Pitch modulation sensitivity lookup table. -/
def LUT_PITCH_MOD_SENSITIVITY : List ℚ :=
  [0.0, 0.0781250, 0.1562500, 0.2578125, 0.4296875, 0.7187500, 1.1953125, 2.0]

/-- Cube root lookup table for velocity normalization. -/
def LUT_CUBE_ROOT : List ℚ :=
  [0.0, 0.39685062976, 0.50000000000, 0.57235744065, 0.62996081605,
   0.67860466725, 0.72112502092, 0.75914745216, 0.79370070937, 0.82548197054,
   0.85498810729, 0.88258719406, 0.90856038354, 0.93312785379, 0.95646563396,
   0.97871693135, 1.0]

/-- Minimum LFO frequency. -/
def MIN_LFO_FREQUENCY : ℚ := 0.005865

/-- pow2Fast from dx_units.js: 2^x by a fast polynomial approximation.
The order-1 path of the source falls back to the library Math.pow(2, x),
modelled by the abstract parameter `pw`. -/
def pow2Fast (pw : ℚ → ℚ) (x : ℚ) (order : ℕ) : ℚ :=
  if order = 1 then
    pw x
  else
    let xIntegral : ℤ := ⌊x⌋
    let xIntegral : ℤ := if x < 0 then xIntegral - 1 else xIntegral
    let x := x - (xIntegral : ℚ)
    let result : ℚ :=
      if order = 2 then 1.0 + x * (0.6565 + x * 0.3435)
      else 1.0 + x * (0.6958 + x * (0.2251 + x * 0.0791))
    result * pw (xIntegral : ℚ)

/-- operatorLevel: operator (envelope) level 0-99 to the complement of TL. -/
def operatorLevel (level : ℕ) : ℕ :=
  if level < 20 then
    (if level < 15 then (level * (36 - level)) >>> 3 else 27 + level)
  else
    level + 28

/-- pitchEnvelopeLevel: envelope level 0-99 to an octave shift. -/
def pitchEnvelopeLevel (level : ℕ) : ℚ :=
  let l : ℚ := ((level : ℚ) - 50.0) / 32.0
  let tail : ℚ := max (|l| + 0.02 - 1.0) 0.0
  l * (1.0 + tail * tail * 5.3056)

/-- operatorEnvelopeIncrement: operator envelope rate 0-99 to a frequency
increment. -/
def operatorEnvelopeIncrement (rate : ℕ) : ℚ :=
  let rateScaled := (rate * 41) >>> 6
  let mantissa := 4 + (rateScaled &&& 3)
  let exponent := 2 + (rateScaled >>> 2)
  ((mantissa <<< exponent : ℕ) : ℚ) / ((1 <<< 24 : ℕ) : ℚ)

/-- pitchEnvelopeIncrement: pitch envelope rate 0-99 to a frequency
increment. -/
def pitchEnvelopeIncrement (rate : ℕ) : ℚ :=
  let r : ℚ := (rate : ℚ) * 0.01
  (1.0 + 192.0 * r * (r * r * r * r + 0.3333)) / (21.3 * 44100.0)

/-- lfoFrequency: LFO rate 0-99 to a frequency. -/
def lfoFrequency (rate : ℕ) : ℚ :=
  let rateScaled := if rate = 0 then 1 else (rate * 165) >>> 6
  let rateScaled :=
    rateScaled * (if rateScaled < 160 then 11 else 11 + ((rateScaled - 160) >>> 4))
  (rateScaled : ℚ) * MIN_LFO_FREQUENCY

/-- lfoDelay: LFO delay 0-99 to two increments. -/
def lfoDelay (delay : ℕ) : ℚ × ℚ :=
  if delay = 0 then
    (100000.0, 100000.0)
  else
    let d := 99 - delay
    let dScaled := (16 + (d &&& 15)) <<< (1 + (d >>> 4))
    let inc0 : ℚ := (dScaled : ℚ) * MIN_LFO_FREQUENCY
    let inc1 : ℚ := ((max 0x80 (dScaled &&& 0xff80) : ℕ) : ℚ) * MIN_LFO_FREQUENCY
    (inc0, inc1)

/-- Linear interpolation in a table (stmlib/dsp.js interpolate). -/
def interpolate (table : List ℚ) (index : ℚ) (size : ℚ) : ℚ :=
  let index := index * size
  let indexIntegral : ℤ := min ⌊index⌋ ((table.length : ℤ) - 2)
  let indexFractional : ℚ := index - (indexIntegral : ℚ)
  let a := table.getD indexIntegral.toNat 0
  let b := table.getD (indexIntegral.toNat + 1) 0
  a + (b - a) * indexFractional

/-- normalizeVelocity: pre-process velocity for velocity scaling. -/
def normalizeVelocity (velocity : ℚ) : ℚ :=
  let cubeRoot := interpolate LUT_CUBE_ROOT velocity 16.0
  16.0 * (cubeRoot - 0.918)

/-- rateScaling: MIDI note to envelope increment ratio. -/
def rateScaling (pw : ℚ → ℚ) (note : ℚ) (rs : ℕ) : ℚ :=
  pow2Fast pw ((rs : ℚ) * (note * 0.33333 - 7.0) * 0.03125) 1

/-- ampModSensitivity lookup (0-3). -/
def ampModSensitivity (s : ℕ) : ℚ :=
  LUT_AMP_MOD_SENSITIVITY.getD s 0

/-- pitchModSensitivity lookup (0-7). -/
def pitchModSensitivity (s : ℕ) : ℚ :=
  LUT_PITCH_MOD_SENSITIVITY.getD s 0

/-- keyboardScaling: keyboard tracking to TL adjustment. -/
def keyboardScaling (note : ℚ) (ks : KeyboardScaling) : ℚ :=
  let x : ℚ := note - (ks.breakPoint : ℚ) - 15.0
  let curve := if 0.0 < x then ks.rightCurve else ks.leftCurve
  let t : ℚ := |x|
  let t := if curve = 1 ∨ curve = 2 then
      let t := min (t * 0.010467) 1.0
      let t := t * t * t
      t * 96.0
    else t
  let t := if curve < 2 then -t else t
  let depth := if 0.0 < x then ks.rightDepth else ks.leftDepth
  t * (depth : ℚ) * 0.02677

/-- First while loop of semitonesToRatioSafe: bring semitones down below
120 in 120-semitone chunks, scaling by 1024 each time. -/
def stRatioHigh (semitones scale : ℚ) : ℚ × ℚ :=
  if h : (120 : ℚ) < semitones then
    stRatioHigh (semitones - 120) (scale * 1024)
  else
    (semitones, scale)
  termination_by (⌈semitones⌉).toNat
  decreasing_by
    have h121 : (120 : ℤ) < ⌈semitones⌉ := by
      rw [Int.lt_ceil]; exact_mod_cast h
    have hc : ⌈semitones - (120 : ℚ)⌉ = ⌈semitones⌉ - 120 := by
      have := Int.ceil_sub_int semitones (120 : ℤ)
      push_cast at this
      exact this
    omega

/-- Second while loop of semitonesToRatioSafe: bring semitones up above
-120 in 120-semitone chunks, scaling by 1/1024 each time. -/
def stRatioLow (semitones scale : ℚ) : ℚ × ℚ :=
  if h : semitones < (-120 : ℚ) then
    stRatioLow (semitones + 120) (scale * (1 / 1024))
  else
    (semitones, scale)
  termination_by (-⌊semitones⌋).toNat
  decreasing_by
    have h121 : ⌊semitones⌋ < -120 := by
      rw [Int.floor_lt]; push_cast; exact h
    have hf : ⌊semitones + (120 : ℚ)⌋ = ⌊semitones⌋ + 120 := by
      have := Int.floor_add_int semitones (120 : ℤ)
      push_cast at this
      exact this
    omega

/-- semitonesToRatio (stmlib/dsp.js): 2^(semitones/12) through the library
exponent, modelled by `pw`. -/
def semitonesToRatio (pw : ℚ → ℚ) (semitones : ℚ) : ℚ :=
  pw (semitones / 12.0)

/-- semitonesToRatioSafe (stmlib/dsp.js): safe handling of extreme
exponents by 120-semitone reduction. -/
def semitonesToRatioSafe (pw : ℚ → ℚ) (semitones : ℚ) : ℚ :=
  let p := stRatioHigh semitones 1.0
  let p := stRatioLow p.1 p.2
  p.2 * semitonesToRatio pw p.1

/-- frequencyRatio (dx_units.js): frequency ratio for an operator. -/
def frequencyRatio (pw : ℚ → ℚ) (op : PatchOperator) : ℚ :=
  let detune : ℚ :=
    if op.mode = 0 ∧ op.fine ≠ 0 then 1.0 + 0.01 * (op.fine : ℚ) else 1.0
  let base : ℚ :=
    if op.mode = 0 then LUT_COARSE.getD op.coarse 0
    else (((op.coarse &&& 3) * 100 + op.fine : ℕ) : ℚ) * 0.39864
  let base := base + ((op.detune : ℚ) - 7.0) * 0.015
  semitonesToRatioSafe pw base * detune

/-! ### Sine primitives (stmlib/dsp.js)

The 513-entry sine table of sine_lut.js is not among the repository's
source files.  Modelled from the spec: a 513-entry sine table (512 samples
plus a wrap duplicate), kept abstract as a parameter `lutSine : ℕ → ℚ`. -/

/-- Linear interpolation in a table with wrapping (stmlib/dsp.js
interpolateWrap), over the abstract sine table. -/
def interpolateWrap (table : ℕ → ℚ) (index : ℚ) (size : ℚ) : ℚ :=
  let index := index - (⌊index⌋ : ℚ)
  let index := index * size
  let indexIntegral : ℤ := ⌊index⌋
  let indexFractional : ℚ := index - (indexIntegral : ℚ)
  let a := table indexIntegral.toNat
  let b := table (indexIntegral.toNat + 1)
  a + (b - a) * indexFractional

/-- sine (stmlib/dsp.js): interpolated sine lookup, phase wrapped. -/
def sine (lutSine : ℕ → ℚ) (phase : ℚ) : ℚ :=
  interpolateWrap lutSine phase 512.0

/-- sinePm (stmlib/dsp.js): phase-modulated sine over a 32-bit phase.
The offset conversion `((pm + 32) * (2^32/64)) >>> 0` is jsToUint32; the
subsequent additions stay below 2^53 and are exact, so they are computed
in ℕ and reduced modulo 2^32 where the source applies `>>> 0`. -/
def sinePm (lutSine : ℕ → ℚ) (phase : ℕ) (pm : ℚ) : ℚ :=
  let phaseOffset := jsToUint32 ((pm + 32.0) * 67108864.0)
  let phase := (phase + phaseOffset * 64) % 4294967296
  let integral := (phase >>> 23) &&& 0x1FF
  let fractional : ℚ := (((phase <<< 9) % 4294967296 : ℕ) : ℚ) / 4294967296
  let a := lutSine integral
  let b := lutSine (integral + 1)
  a + (b - a) * fractional

/-! ### Phase accumulation (operator.js renderOperators inner loop) -/

/-- The per-sample phase accumulator update of renderOperators:
`phase[i] = (phase[i] + frequency[i]) >>> 0`. -/
def phaseAccumStep (phase increment : ℕ) : ℕ :=
  (phase + increment) % 4294967296

/-- Reference 64-bit accumulation (wrapping at 2^64). -/
def phaseAccumStepU64 (phase increment : ℕ) : ℕ :=
  (phase + increment) % 18446744073709551616

/-! ### Supporting lemmas -/

set_option maxRecDepth 8192 in
theorem and_511_eq_self : ∀ x : ℕ, x < 512 → x &&& 511 = x := by decide

theorem floor_div_nat (a b : ℕ) (hb : 0 < b) :
    ⌊(a : ℚ) / (b : ℚ)⌋ = ((a / b : ℕ) : ℤ) := by
  have hb' : (0 : ℚ) < (b : ℚ) := by exact_mod_cast hb
  rw [Int.floor_eq_iff]
  constructor
  · rw [le_div_iff₀ hb']
    exact_mod_cast Nat.div_mul_le_self a b
  · rw [div_lt_iff₀ hb']
    have hdm : b * (a / b) + a % b = a := Nat.div_add_mod a b
    have hmod : a % b < b := Nat.mod_lt a hb
    have h2 : a < (a / b + 1) * b := by
      calc a = b * (a / b) + a % b := hdm.symm
        _ < b * (a / b) + b := by omega
        _ = (a / b + 1) * b := by ring
    exact_mod_cast h2

theorem foldl_phaseAccumStep (incs : List ℕ) :
    ∀ p : ℕ, incs.foldl phaseAccumStep (p % 4294967296)
      = (p + incs.sum) % 4294967296 := by
  induction incs with
  | nil => intro p; simp
  | cons i l ih =>
    intro p
    have hstep : phaseAccumStep (p % 4294967296) i = (p + i) % 4294967296 := by
      simp [phaseAccumStep, Nat.mod_add_mod]
    rw [List.foldl_cons, hstep, ih (p + i), List.sum_cons]
    ring_nf

theorem foldl_phaseAccumStepU64 (incs : List ℕ) :
    ∀ p : ℕ, incs.foldl phaseAccumStepU64 (p % 18446744073709551616)
      = (p + incs.sum) % 18446744073709551616 := by
  induction incs with
  | nil => intro p; simp
  | cons i l ih =>
    intro p
    have hstep : phaseAccumStepU64 (p % 18446744073709551616) i
        = (p + i) % 18446744073709551616 := by
      simp [phaseAccumStepU64, Nat.mod_add_mod]
    rw [List.foldl_cons, hstep, ih (p + i), List.sum_cons]
    ring_nf

/-- C1: `sine_pm(phase, 0)` agrees with `sine` at phase/2^32; the
phase-modulation input wraps with period 64 whenever the converted offset
`(pm + 32) * 2^26` is nonnegative, i.e. for every pm at least -32 (the
documented modulation range).  For pm below -32 the truncation toward zero
of a negative non-integer offset breaks the period (see the
counterexample), so the wrap hypothesis `-32 ≤ pm` is required. -/
theorem sinePm_agreement (lutSine : ℕ → ℚ) (p : ℕ) (pm : ℚ)
    (hp : p < 4294967296) (hpm : -32 ≤ pm) :
    sinePm lutSine p 0 = sine lutSine ((p : ℚ) / 4294967296)
      ∧ sinePm lutSine p pm = sinePm lutSine p (pm + 64) := by
  constructor
  · have hoff : jsToUint32 ((0 + 32.0) * 67108864.0) = 2147483648 := by
      norm_num [jsToUint32, jsTrunc]
      rfl
    have hphase : (p + 2147483648 * 64) % 4294967296 = p := by omega
    have hq23 : p / 8388608 < 512 := by omega
    have hsr : p >>> 23 = p / 8388608 := by
      rw [Nat.shiftRight_eq_div_pow]
    have hsl : (p <<< 9) % 4294967296 = 512 * (p % 8388608) := by
      rw [Nat.shiftLeft_eq]
      norm_num
      omega
    have hfl0 : ⌊(p : ℚ) / 4294967296⌋ = 0 := by
      have h := floor_div_nat p 4294967296 (by norm_num)
      rw [Nat.div_eq_of_lt hp] at h
      rw [show ((4294967296 : ℕ) : ℚ) = (4294967296 : ℚ) from by norm_num] at h
      exact_mod_cast h
    have hfl1 : ⌊(p : ℚ) / 8388608⌋ = ((p / 8388608 : ℕ) : ℤ) := by
      have h := floor_div_nat p 8388608 (by norm_num)
      rw [show ((8388608 : ℕ) : ℚ) = (8388608 : ℚ) from by norm_num] at h
      exact h
    simp only [sinePm, sine, interpolateWrap, hoff, hphase, hsr, hsl, hfl0]
    rw [and_511_eq_self _ hq23]
    have hindex : ((p : ℚ) / 4294967296 - ((0 : ℤ) : ℚ)) * 512.0
        = (p : ℚ) / 8388608 := by
      push_cast
      ring
    rw [hindex, hfl1, Int.toNat_natCast]
    have hdm : 8388608 * (p / 8388608) + p % 8388608 = p := Nat.div_add_mod p 8388608
    have hcast : (p : ℚ)
        = 8388608 * ((p / 8388608 : ℕ) : ℚ) + ((p % 8388608 : ℕ) : ℚ) := by
      exact_mod_cast hdm.symm
    have hfrac : ((512 * (p % 8388608) : ℕ) : ℚ) / 4294967296
        = (p : ℚ) / 8388608 - ((p / 8388608 : ℕ) : ℚ) := by
      rw [Nat.cast_mul, hcast]
      push_cast
      ring
    rw [Int.cast_natCast, hfrac]
  · have harg : (pm + 64 + 32.0) * 67108864.0
        = (pm + 32.0) * 67108864.0 + 4294967296 := by
      norm_num
      ring
    have hq0 : 0 ≤ (pm + 32.0) * 67108864.0 := by
      have h1 : (0 : ℚ) ≤ pm + 32.0 := by
        norm_num
        linarith
      positivity
    have hjs : jsToUint32 ((pm + 32.0) * 67108864.0 + 4294967296)
        = jsToUint32 ((pm + 32.0) * 67108864.0) := by
      unfold jsToUint32 jsTrunc
      rw [if_neg (not_lt.2 hq0), if_neg (by push_neg; linarith)]
      have hfl : ⌊(pm + 32.0) * 67108864.0 + (4294967296 : ℚ)⌋
          = ⌊(pm + 32.0) * 67108864.0⌋ + 4294967296 := by
        have h := Int.floor_add_int ((pm + 32.0) * 67108864.0) (4294967296 : ℤ)
        push_cast at h ⊢
        exact h
      rw [hfl]
      omega
    simp only [sinePm]
    rw [harg, hjs]

/-- C1 counterexample: with the identity table, a modulation input just
below -32 (here pm = -33 - 2^-27) breaks the claimed 64-periodicity,
because ToUint32 truncates the negative offset toward zero while the
offset of pm + 64 is nonnegative and floors. -/
theorem sinePm_period_counterexample :
    sinePm (fun i => (i : ℚ)) 0 (-33 - 1/134217728)
      ≠ sinePm (fun i => (i : ℚ)) 0 (-33 - 1/134217728 + 64) := by
  norm_num [sinePm, jsToUint32, jsTrunc, Int.ceil_neg]
  rw [show Int.toNat 4227858432 = 4227858432 from rfl,
      show Int.toNat 4227858431 = 4227858431 from rfl,
      show (4294967232 >>> 23 &&& 511 : ℕ) = 511 from by decide,
      show (4294967232 <<< 9 % 4294967296 : ℕ) = 4294934528 from by decide]
  norm_num

/-- C1 witness: the agreement theorem applied at p = 5, pm = 0, with the
identity table standing in for the sine table. -/
theorem sinePm_agreement_witness :
    (5 : ℕ) < 4294967296 ∧ (-32 : ℚ) ≤ 0
      ∧ (sinePm (fun i => (i : ℚ)) 5 0
          = sine (fun i => (i : ℚ)) ((5 : ℚ) / 4294967296)
        ∧ sinePm (fun i => (i : ℚ)) 5 0
          = sinePm (fun i => (i : ℚ)) 5 (0 + 64)) :=
  ⟨by norm_num, by norm_num,
   sinePm_agreement (fun i => (i : ℚ)) 5 0 (by norm_num) (by norm_num)⟩

/-- C5 counterexample: `lfo_frequency(0) · MIN_LFO_FREQUENCY⁻¹ · 11` is
121, not 1: lfoFrequency 0 is 11 · MIN_LFO_FREQUENCY, so the claimed
product multiplies by 11 once too often. -/
theorem lfoFrequency_times_eleven_counterexample :
    ¬ (lfoFrequency 0 * MIN_LFO_FREQUENCY⁻¹ * 11 = 1
        ∧ lfoDelay 0 = (100000, 100000)) := by
  intro h
  have h1 := h.1
  norm_num [lfoFrequency, MIN_LFO_FREQUENCY] at h1

/-- C5 amended: `lfo_frequency(0) · MIN_LFO_FREQUENCY⁻¹ · 11⁻¹ = 1`
(equivalently lfo_frequency(0) = 11 · MIN_LFO_FREQUENCY), and
`lfo_delay(0) = (1e5, 1e5)`. -/
theorem lfoFrequency_lfoDelay_zero :
    lfoFrequency 0 * MIN_LFO_FREQUENCY⁻¹ * (11 : ℚ)⁻¹ = 1
      ∧ lfoDelay 0 = (100000, 100000) := by
  constructor
  · norm_num [lfoFrequency, MIN_LFO_FREQUENCY]
  · norm_num [lfoDelay]

/-- C8: accumulating any sequence of increments through the per-sample
32-bit update `phase = (phase + increment) >>> 0` of renderOperators
produces the mod-2^32 sum, and agrees with a reference 64-bit
accumulation truncated to 32 bits. -/
theorem phaseAccum_exact (p : ℕ) (incs : List ℕ) (hp : p < 4294967296) :
    incs.foldl phaseAccumStep p = (p + incs.sum) % 4294967296
      ∧ incs.foldl phaseAccumStep p
        = (incs.foldl phaseAccumStepU64 p) % 4294967296 := by
  have hp32 : p % 4294967296 = p := Nat.mod_eq_of_lt hp
  have hp64 : p % 18446744073709551616 = p := Nat.mod_eq_of_lt (by omega)
  have h32 : incs.foldl phaseAccumStep p = (p + incs.sum) % 4294967296 := by
    conv_lhs => rw [← hp32]
    exact foldl_phaseAccumStep incs p
  refine ⟨h32, ?_⟩
  have h64 : incs.foldl phaseAccumStepU64 p = (p + incs.sum) % 18446744073709551616 := by
    conv_lhs => rw [← hp64]
    exact foldl_phaseAccumStepU64 incs p
  rw [h32, h64, Nat.mod_mod_of_dvd _ ⟨4294967296, by norm_num⟩]

/-- C8 witness: three increments wrapping past 2^32. -/
theorem phaseAccum_exact_witness :
    (7 : ℕ) < 4294967296
      ∧ ([4294967295, 5, 4294967290].foldl phaseAccumStep 7
          = (7 + [4294967295, 5, 4294967290].sum) % 4294967296
        ∧ [4294967295, 5, 4294967290].foldl phaseAccumStep 7
          = ([4294967295, 5, 4294967290].foldl phaseAccumStepU64 7) % 4294967296) :=
  ⟨by norm_num, phaseAccum_exact 7 [4294967295, 5, 4294967290] (by norm_num)⟩

/-! ### Patch decoding (fm/patch.js) -/

/-- Error message of Patch.unpack for a wrong length. -/
def badVoiceLengthMsg : String := "Patch data not exactly 128 bytes long"

/-- Error message of the PatchBank constructor for a wrong length. -/
def badBankLengthMsg : String :=
  "Currently only support parsing banks with exactly 32 patches, which must be 4104 bytes exactly"

/-- Error message of the PatchBank constructor for a bad header. -/
def badBankHeaderMsg : String := "Sysex header is not correct"

/-- The canonical bank header bytes. -/
def HEADER_BANK : List ℕ := [0xF0, 0x43, 0x00, 0x09, 0x20, 0x00]

/-- One 17-byte operator block of Patch.unpack.  `opData` is the suffix of
the voice data starting at the block (the source slices to the end). -/
def unpackOperator (opData : List ℕ) : PatchOperator :=
  { envelope :=
      { rate := (List.range 4).map fun j => min (opData.getD j 0 &&& 0x7f) 99,
        level := (List.range 4).map fun j => min (opData.getD (4 + j) 0 &&& 0x7f) 99 },
    keyboardScaling :=
      { breakPoint := min (opData.getD 8 0 &&& 0x7f) 99,
        leftDepth := min (opData.getD 9 0 &&& 0x7f) 99,
        rightDepth := min (opData.getD 10 0 &&& 0x7f) 99,
        leftCurve := opData.getD 11 0 &&& 0x3,
        rightCurve := (opData.getD 11 0 >>> 2) &&& 0x3 },
    rateScaling := opData.getD 12 0 &&& 0x7,
    ampModSensitivity := opData.getD 13 0 &&& 0x3,
    velocitySensitivity := (opData.getD 13 0 >>> 2) &&& 0x7,
    level := min (opData.getD 14 0 &&& 0x7f) 99,
    mode := opData.getD 15 0 &&& 0x1,
    coarse := (opData.getD 15 0 >>> 1) &&& 0x1f,
    fine := min (opData.getD 16 0 &&& 0x7f) 99,
    detune := min ((opData.getD 12 0 >>> 3) &&& 0xf) 14 }

/-- The field assignments of Patch.unpack, applied to a 128-byte voice
(the length check is in `patchUnpack`). -/
def patchUnpackRaw (data : List ℕ) : Patch :=
  { op := (List.range 6).map fun i => unpackOperator (data.drop (i * 17)),
    pitchEnvelope :=
      { rate := (List.range 4).map fun j => min (data.getD (102 + j) 0 &&& 0x7f) 99,
        level := (List.range 4).map fun j => min (data.getD (106 + j) 0 &&& 0x7f) 99 },
    algorithm := data.getD 110 0 &&& 0x1f,
    feedback := data.getD 111 0 &&& 0x7,
    resetPhase := (data.getD 111 0 >>> 3) &&& 0x1,
    modulations :=
      { rate := min (data.getD 112 0 &&& 0x7f) 99,
        delay := min (data.getD 113 0 &&& 0x7f) 99,
        pitchModDepth := min (data.getD 114 0 &&& 0x7f) 99,
        ampModDepth := min (data.getD 115 0 &&& 0x7f) 99,
        resetPhase := data.getD 116 0 &&& 0x1,
        waveform := min ((data.getD 116 0 >>> 1) &&& 0x7) 5,
        pitchModSensitivity := data.getD 116 0 >>> 4 },
    transpose := min (data.getD 117 0 &&& 0x7f) 48,
    name := (List.range 10).map fun i => data.getD (118 + i) 0 &&& 0x7f,
    activeOperators := 0x3f }

/-- Patch.unpack (equivalently Patch.fromBytes): the length check, then
the field assignments. -/
def patchUnpack (data : List ℕ) : Except String Patch :=
  if data.length ≠ 128 then Except.error badVoiceLengthMsg
  else Except.ok (patchUnpackRaw data)

/-- The PatchBank constructor's patch loop: unpack each 128-byte slice of
the payload, propagating the first unpack error. -/
def unpackAll (patchData : List ℕ) : List ℕ → Except String (List Patch)
  | [] => Except.ok []
  | idx :: rest => do
      let p ← patchUnpack ((patchData.drop (idx * 128)).take 128)
      let ps ← unpackAll patchData rest
      Except.ok (p :: ps)

/-- The header comparison loop of the PatchBank constructor. -/
def headerOk (data : List ℕ) : Bool :=
  (List.range 6).all fun i => data.getD i 0 == HEADER_BANK.getD i 0

/-- The PatchBank constructor: length check, header check, then 32
unpacked patches from the payload after the 6-byte header. -/
def patchBankParse (data : List ℕ) : Except String (List Patch) :=
  if data.length ≠ 4104 then Except.error badBankLengthMsg
  else if ¬ headerOk data then Except.error badBankHeaderMsg
  else unpackAll (data.drop 6) (List.range 32)

/-- Every slice the bank loop hands to Patch.unpack has exactly 128
bytes when the bank payload has its full 4098 bytes. -/
theorem bank_slice_length (payload : List ℕ) (hlen : payload.length = 4098)
    (i : ℕ) (hi : i < 32) : ((payload.drop (i * 128)).take 128).length = 128 := by
  simp only [List.length_take, List.length_drop, hlen]
  omega

theorem unpackAll_ok (patchData : List ℕ) (idxs : List ℕ)
    (h : ∀ i ∈ idxs, ((patchData.drop (i * 128)).take 128).length = 128) :
    ∃ ps, unpackAll patchData idxs = Except.ok ps ∧ ps.length = idxs.length := by
  induction idxs with
  | nil => exact ⟨[], rfl, rfl⟩
  | cons i rest ih =>
    have hi := h i (by simp)
    obtain ⟨ps, hps, hlenps⟩ := ih fun j hj => h j (by simp [hj])
    refine ⟨patchUnpackRaw ((patchData.drop (i * 128)).take 128) :: ps, ?_, by simp [hlenps]⟩
    simp [unpackAll, patchUnpack, hi, hps]
    rfl

/-- C6: bank construction fails with the length error exactly when the
input is not 4104 bytes; fails with the header error exactly when it is
4104 bytes with a wrong first-six-byte header; succeeds with 32 decoded
patches exactly otherwise; and single-voice decoding succeeds exactly on
128-byte inputs (so out-of-range numeric bytes never raise). -/
theorem bank_error_conditions (data : List ℕ) :
    (patchBankParse data = Except.error badBankLengthMsg ↔ data.length ≠ 4104)
    ∧ (patchBankParse data = Except.error badBankHeaderMsg
        ↔ (data.length = 4104 ∧ headerOk data = false))
    ∧ ((∃ ps, patchBankParse data = Except.ok ps ∧ ps.length = 32)
        ↔ (data.length = 4104 ∧ headerOk data = true))
    ∧ (∀ v : List ℕ, (∃ p, patchUnpack v = Except.ok p) ↔ v.length = 128) := by
  have hmsg : badBankLengthMsg ≠ badBankHeaderMsg := by decide
  have hunpack : ∀ v : List ℕ, (∃ p, patchUnpack v = Except.ok p) ↔ v.length = 128 := by
    intro v
    constructor
    · intro ⟨p, hp⟩
      by_contra hv
      simp [patchUnpack, hv] at hp
    · intro hv
      exact ⟨patchUnpackRaw v, by simp [patchUnpack, hv]⟩
  by_cases hlen : data.length = 4104
  · by_cases hh : headerOk data
    · have hok : ∃ ps, patchBankParse data = Except.ok ps ∧ ps.length = 32 := by
        have hdrop : (data.drop 6).length = 4098 := by simp [List.length_drop, hlen]
        obtain ⟨ps, hps, hlenps⟩ := unpackAll_ok (data.drop 6) (List.range 32)
          (fun i hi => bank_slice_length _ hdrop i (List.mem_range.mp hi))
        refine ⟨ps, ?_, by simpa using hlenps⟩
        simp [patchBankParse, hlen, hh, hps]
      obtain ⟨ps, hps, hlenps⟩ := hok
      refine ⟨?_, ?_, ?_, hunpack⟩
      · simp [hps, hlen]
      · simp [hps, hlen, hh]
      · exact ⟨fun _ => ⟨hlen, hh⟩, fun _ => ⟨ps, hps, hlenps⟩⟩
    · have herr : patchBankParse data = Except.error badBankHeaderMsg := by
        simp [patchBankParse, hlen, hh]
      refine ⟨?_, ?_, ?_, hunpack⟩
      · simp [herr, hlen, hmsg.symm]
      · simp [herr, hlen, hh]
      · simp only [herr]
        constructor
        · rintro ⟨ps, hps, -⟩
          exact absurd hps (by simp)
        · rintro ⟨-, hh2⟩
          exact absurd hh2 (by simpa using hh)
  · have herr : patchBankParse data = Except.error badBankLengthMsg := by
      simp [patchBankParse, hlen]
    refine ⟨?_, ?_, ?_, hunpack⟩
    · simp [herr, hlen]
    · simp [herr, hlen, hmsg]
    · simp only [herr]
      constructor
      · rintro ⟨ps, hps, -⟩
        exact absurd hps (by simp)
      · rintro ⟨hl, -⟩
        exact absurd hl hlen

/-- C2 (amended): every decoded field of the patch decoder is within its
documented range, with the one exception that pitch-mod sensitivity is
the unmasked top four bits of byte 116 (0..15); it is within 0..7
exactly when byte 116 is 7-bit clean (below 0x80), as every byte of a
well-formed SysEx payload is. -/
theorem patchUnpack_ranges (data : List ℕ) :
    (∀ o ∈ (patchUnpackRaw data).op,
        (∀ r ∈ o.envelope.rate, r ≤ 99) ∧ (∀ l ∈ o.envelope.level, l ≤ 99)
        ∧ o.keyboardScaling.breakPoint ≤ 99 ∧ o.keyboardScaling.leftDepth ≤ 99
        ∧ o.keyboardScaling.rightDepth ≤ 99 ∧ o.keyboardScaling.leftCurve ≤ 3
        ∧ o.keyboardScaling.rightCurve ≤ 3 ∧ o.rateScaling ≤ 7
        ∧ o.ampModSensitivity ≤ 3 ∧ o.velocitySensitivity ≤ 7 ∧ o.level ≤ 99
        ∧ o.mode ≤ 1 ∧ o.coarse ≤ 31 ∧ o.fine ≤ 99 ∧ o.detune ≤ 14)
    ∧ (∀ r ∈ (patchUnpackRaw data).pitchEnvelope.rate, r ≤ 99)
    ∧ (∀ l ∈ (patchUnpackRaw data).pitchEnvelope.level, l ≤ 99)
    ∧ (patchUnpackRaw data).algorithm ≤ 31
    ∧ (patchUnpackRaw data).feedback ≤ 7
    ∧ (patchUnpackRaw data).resetPhase ≤ 1
    ∧ (patchUnpackRaw data).modulations.rate ≤ 99
    ∧ (patchUnpackRaw data).modulations.delay ≤ 99
    ∧ (patchUnpackRaw data).modulations.pitchModDepth ≤ 99
    ∧ (patchUnpackRaw data).modulations.ampModDepth ≤ 99
    ∧ (patchUnpackRaw data).modulations.resetPhase ≤ 1
    ∧ (patchUnpackRaw data).modulations.waveform ≤ 5
    ∧ (patchUnpackRaw data).transpose ≤ 48
    ∧ (data.getD 116 0 < 128
        → (patchUnpackRaw data).modulations.pitchModSensitivity ≤ 7)
    ∧ (data.length = 128 → patchUnpack data = Except.ok (patchUnpackRaw data)) := by
  refine ⟨?_, ?_, ?_, ?_, ?_, ?_, ?_, ?_, ?_, ?_, ?_, ?_, ?_, ?_, ?_⟩
  · intro o ho
    simp only [patchUnpackRaw, List.mem_map, List.mem_range] at ho
    obtain ⟨i, -, rfl⟩ := ho
    refine ⟨?_, ?_, min_le_right _ _, min_le_right _ _, min_le_right _ _,
        Nat.and_le_right, Nat.and_le_right, Nat.and_le_right, Nat.and_le_right,
        Nat.and_le_right, min_le_right _ _, Nat.and_le_right, Nat.and_le_right,
        min_le_right _ _, min_le_right _ _⟩
    · intro r hr
      simp only [unpackOperator, List.mem_map, List.mem_range] at hr
      obtain ⟨j, -, rfl⟩ := hr
      exact min_le_right _ _
    · intro l hl
      simp only [unpackOperator, List.mem_map, List.mem_range] at hl
      obtain ⟨j, -, rfl⟩ := hl
      exact min_le_right _ _
  · intro r hr
    simp only [patchUnpackRaw, List.mem_map, List.mem_range] at hr
    obtain ⟨j, -, rfl⟩ := hr
    exact min_le_right _ _
  · intro l hl
    simp only [patchUnpackRaw, List.mem_map, List.mem_range] at hl
    obtain ⟨j, -, rfl⟩ := hl
    exact min_le_right _ _
  · exact Nat.and_le_right
  · exact Nat.and_le_right
  · exact Nat.and_le_right
  · exact min_le_right _ _
  · exact min_le_right _ _
  · exact min_le_right _ _
  · exact min_le_right _ _
  · exact Nat.and_le_right
  · exact min_le_right _ _
  · exact min_le_right _ _
  · intro h
    show data.getD 116 0 >>> 4 ≤ 7
    rw [Nat.shiftRight_eq_div_pow]
    omega
  · intro h
    simp [patchUnpack, h]

set_option maxRecDepth 20000 in
/-- C2 counterexample: the 128-byte input of all 0xFF bytes is accepted
by the decoder, yet its decoded pitch-mod sensitivity is 15, outside the
documented range 0..7: byte 116 is shifted by 4 but never masked to bits
4..6. -/
theorem patchUnpack_pms_counterexample :
    patchUnpack (List.replicate 128 255)
        = Except.ok (patchUnpackRaw (List.replicate 128 255))
      ∧ 7 < (patchUnpackRaw (List.replicate 128 255)).modulations.pitchModSensitivity := by
  constructor
  · rfl
  · show 7 < (255 : ℕ) >>> 4
    decide

/-! ### Envelope (fm/envelope.js) -/

/-- Sentinel value indicating to use the previous level. -/
def PREVIOUS_LEVEL : ℚ := -100.0

/-- Generic multi-segment envelope state (envelope.js Envelope).  The
Float32Array fields `increment` and `level` are modelled as functions
from the index; only indices below `numStages` are ever read. -/
structure Env where
  numStages : ℕ
  reshapeAscending : Bool
  stage : ℕ
  phase : ℚ
  start : ℚ
  increment : ℕ → ℚ
  level : ℕ → ℚ
  scale : ℚ

/-- Envelope.init: scale factor, release stage, default ramps. -/
def Env.init (numStages : ℕ) (reshapeAscending : Bool) (scale : ℚ) : Env :=
  { numStages, reshapeAscending, scale,
    stage := numStages - 1, phase := 1.0, start := 0.0,
    increment := fun _ => 0.001,
    level := fun i => if i = numStages - 1 then 0.0 else 1 / ((2 ^ i : ℕ) : ℚ) }

/-- Envelope.valueAt: envelope value at a stage and phase, with the
ascending reshape quirk. -/
def Env.valueAt (e : Env) (stage : ℕ) (phase : ℚ) (startLevel : ℚ) : ℚ :=
  let fromL := if startLevel = PREVIOUS_LEVEL
    then e.level ((stage + e.numStages - 1) % e.numStages)
    else startLevel
  let toL := e.level stage
  if e.reshapeAscending ∧ fromL < toL then
    let fromL := max fromL 6.7
    let toL := max toL 6.7
    let phase := phase * (2.5 - phase) * 0.666667
    phase * (toL - fromL) + fromL
  else
    phase * (toL - fromL) + fromL

/-- Envelope.value. -/
def Env.value (e : Env) : ℚ :=
  e.valueAt e.stage e.phase e.start

/-- Envelope.renderScaled: one envelope sample with rate and time
scaling, returning the updated state and the rendered value.  The
comparison `stage >= numStages - 2` is taken over ℤ, as in the
JavaScript number arithmetic. -/
def Env.renderScaled (e : Env) (gate : Bool) (rate adScale releaseScale : ℚ) : Env × ℚ :=
  let e :=
    if gate then
      if e.stage = e.numStages - 1 then
        { e with start := e.value, stage := 0, phase := 0.0 }
      else e
    else
      if e.stage ≠ e.numStages - 1 then
        { e with start := e.value, stage := e.numStages - 1, phase := 0.0 }
      else e
  let scaleFactor := if e.stage = e.numStages - 1 then releaseScale else adScale
  let e := { e with phase := e.phase + e.increment e.stage * rate * scaleFactor }
  let e :=
    if 1.0 ≤ e.phase then
      if (e.numStages : ℤ) - 2 ≤ (e.stage : ℤ) then
        { e with phase := 1.0, start := PREVIOUS_LEVEL }
      else
        { e with phase := 0.0, stage := e.stage + 1, start := PREVIOUS_LEVEL }
    else e
  (e, e.value)

/-- Envelope.render. -/
def Env.render (e : Env) (gate : Bool) : Env × ℚ :=
  e.renderScaled gate 1.0 1.0 1.0

/-- The stage-finding loop of Envelope.renderAtSample, accumulating
stage durations 1/increment[i]. -/
def Env.stageSearch (e : Env) (i : ℕ) (remainingTime : ℚ) : ℕ × ℚ :=
  if i < e.numStages - 1 then
    let stageDuration := 1.0 / e.increment i
    if remainingTime < stageDuration then (i, remainingTime)
    else e.stageSearch (i + 1) (remainingTime - stageDuration)
  else (i, remainingTime)
  termination_by e.numStages - 1 - i

/-- Envelope.renderAtSample: scrubbed (deterministic sample-time)
rendering.  The single recursive call evaluates the sustain value at
t = gateDuration. -/
def Env.renderAtSample (e : Env) (t gateDuration : ℚ) : ℚ :=
  if h : gateDuration < t then
    let phase := (t - gateDuration) * e.increment (e.numStages - 1)
    if 1.0 ≤ phase then e.level (e.numStages - 1)
    else
      let sustainValue := e.renderAtSample gateDuration gateDuration
      e.valueAt (e.numStages - 1) phase sustainValue
  else
    let sr := e.stageSearch 0 t
    let stage := sr.1
    let remainingTime := sr.2
    if stage = e.numStages - 1 then
      let remainingTime := remainingTime - gateDuration
      if remainingTime ≤ 0.0 then e.level (e.numStages - 2)
      else if 1.0 < remainingTime * e.increment (e.numStages - 1) then
        e.level (e.numStages - 1)
      else e.valueAt stage (remainingTime * e.increment stage) PREVIOUS_LEVEL
    else e.valueAt stage (remainingTime * e.increment stage) PREVIOUS_LEVEL
  termination_by (if gateDuration < t then 1 else 0 : ℕ)
  decreasing_by simp [h, lt_irrefl]

/-- OperatorEnvelope.set: operator level decoding and the DX7 increment
quirks (plateau slowdown, fast attack plateau, ascending clamp and rate
adjustment).  `2 * (x / 2)` renders the source's `x & ~1`. -/
def operatorEnvelopeSet (e : Env) (rate level : List ℕ) (globalLevel : ℕ) : Env :=
  let newLevel : ℕ → ℚ := fun i =>
    if i < 4 then
      let levelScaled : ℤ :=
        2 * ((operatorLevel (level.getD i 0) : ℤ) / 2) + (globalLevel : ℤ) - 133
      0.125 * (if levelScaled < 1 then 0.5 else (levelScaled : ℚ))
    else e.level i
  let newIncrement : ℕ → ℚ := fun i =>
    if i < 4 then
      let increment := operatorEnvelopeIncrement (rate.getD i 0)
      let fromL := newLevel ((i + 4 - 1) % 4)
      let toL := newLevel i
      let increment :=
        if fromL = toL then
          let increment := increment * 0.6
          if i = 0 ∧ level.getD i 0 = 0 then increment * 20.0 else increment
        else if fromL < toL then
          let fromClamped := max fromL 6.7
          let toClamped := max toL 6.7
          if fromClamped = toClamped then 1.0
          else increment * (7.2 / (toClamped - fromClamped))
        else increment * (1.0 / (fromL - toL))
      increment * e.scale
    else e.increment i
  { e with level := newLevel, increment := newIncrement }

/-- PitchEnvelope.set: pitch envelope levels and increments. -/
def pitchEnvelopeSet (e : Env) (rate level : List ℕ) : Env :=
  let newLevel : ℕ → ℚ := fun i =>
    if i < 4 then pitchEnvelopeLevel (level.getD i 0) else e.level i
  let newIncrement : ℕ → ℚ := fun i =>
    if i < 4 then
      let fromL := newLevel ((i + 4 - 1) % 4)
      let toL := newLevel i
      let increment := pitchEnvelopeIncrement (rate.getD i 0)
      let increment :=
        if fromL ≠ toL then increment * (1.0 / |fromL - toL|)
        else if i ≠ 3 then 0.2 else increment
      increment * e.scale
    else e.increment i
  { e with level := newLevel, increment := newIncrement }

/-- A concrete four-stage envelope state used by witnesses. -/
def envWitness : Env :=
  { numStages := 4, reshapeAscending := true, stage := 1, phase := 0.5,
    start := PREVIOUS_LEVEL, increment := fun _ => 1.0, level := fun _ => 0.0,
    scale := 1.0 }

set_option maxRecDepth 32768 in
/-- C7: a renderScaled call keeps the stage inside [0, numStages-1], and
a call with gate = true never leaves the envelope in the final (release)
stage: after any gate-true render the stage is at most numStages - 2, so
once gate-held rendering has left the release stage only a gate-false
call can re-enter it. -/
theorem envelope_stage_invariant (e : Env) (gate : Bool) (rate adScale releaseScale : ℚ)
    (h : e.stage < e.numStages) :
    (e.renderScaled gate rate adScale releaseScale).1.stage < e.numStages
    ∧ (gate = true → 2 ≤ e.numStages →
        (e.renderScaled gate rate adScale releaseScale).1.stage ≠ e.numStages - 1) := by
  simp only [Env.renderScaled]
  split_ifs <;> dsimp only at * <;> constructor <;> intros <;> first | omega | simp_all

/-- C7 witness: a four-stage envelope in the decay stage, rendered with
the gate held. -/
theorem envelope_stage_invariant_witness :
    (envWitness.stage < envWitness.numStages)
    ∧ ((envWitness.renderScaled true 1 1 1).1.stage < envWitness.numStages
      ∧ (true = true → 2 ≤ envWitness.numStages →
          (envWitness.renderScaled true 1 1 1).1.stage ≠ envWitness.numStages - 1)) :=
  ⟨by decide, envelope_stage_invariant envWitness true 1 1 1 (by decide)⟩

/-! ### FM operator and chain renderer (fm/operator.js) -/

/-- FM operator state (operator.js Operator): 32-bit phase accumulator
and current amplitude. -/
structure Operator where
  phase : ℕ
  amplitude : ℚ
  deriving Repr, DecidableEq

instance : Inhabited Operator := ⟨⟨0, 0.0⟩⟩

/-- Operator.reset. -/
def Operator.reset (_ : Operator) : Operator :=
  { phase := 0, amplitude := 0.0 }

/-- State of the per-sample inner loop of renderOperators. -/
structure ChainState where
  phase : List ℕ
  amplitude : List ℚ
  pm : ℚ
  previous0 : ℚ
  previous1 : ℚ

/-- State of the sample loop of renderOperators. -/
structure ChainLoopState where
  phase : List ℕ
  amplitude : List ℚ
  previous0 : ℚ
  previous1 : ℚ
  out : List ℚ

/-- renderOperators (operator.js): block renderer for a chain of N
operators with the given modulation source and additive flag.  The
source's factory closure is the triple of its parameters; the returned
values are the mutated operators, feedback state and output buffer.
`modIdx` always equals the sample index, since both advance by one per
sample.  The JavaScript `phase[i] = (phase[i] + frequency[i]) >>> 0` is
`phaseAccumStep`. -/
def renderOperators (lutSine : ℕ → ℚ) (N : ℕ) (MODULATION_SOURCE : ℤ) (ADDITIVE : Bool)
    (ops : List Operator) (f a : List ℚ) (fbState : ℚ × ℚ) (fbAmount : ℕ)
    (modulation : List ℚ) (out : List ℚ) :
    List Operator × (ℚ × ℚ) × List ℚ :=
  let size := out.length
  let previous0 := if 0 ≤ MODULATION_SOURCE then fbState.1 else 0.0
  let previous1 := if 0 ≤ MODULATION_SOURCE then fbState.2 else 0.0
  let frequency : List ℕ :=
    (List.range N).map fun i => jsToUint32 (min (f.getD i 0) 0.5 * 4294967296.0)
  let phase : List ℕ := (List.range N).map fun i => (ops.getD i default).phase
  let amplitude : List ℚ := (List.range N).map fun i => (ops.getD i default).amplitude
  let scale : ℚ := 1.0 / (size : ℚ)
  let amplitudeIncrement : List ℚ :=
    (List.range N).map fun i =>
      (min (a.getD i 0) 4.0 - (ops.getD i default).amplitude) * scale
  let fbScale : ℚ := if fbAmount ≠ 0 then ((1 <<< fbAmount : ℕ) : ℚ) / 512.0 else 0.0
  let final := (List.range size).foldl
    (fun (st : ChainLoopState) sampleIdx =>
      let pm : ℚ :=
        if 0 ≤ MODULATION_SOURCE then (st.previous0 + st.previous1) * fbScale
        else if MODULATION_SOURCE = -2 then modulation.getD sampleIdx 0
        else 0.0
      let inner := (List.range N).foldl
        (fun (st2 : ChainState) i =>
          let ph := phaseAccumStep (st2.phase.getD i 0) (frequency.getD i 0)
          let pm := sinePm lutSine ph st2.pm * st2.amplitude.getD i 0
          let amp := st2.amplitude.getD i 0 + amplitudeIncrement.getD i 0
          let prev := if (i : ℤ) = MODULATION_SOURCE
            then (pm, st2.previous0) else (st2.previous0, st2.previous1)
          { phase := st2.phase.set i ph, amplitude := st2.amplitude.set i amp,
            pm, previous0 := prev.1, previous1 := prev.2 })
        { phase := st.phase, amplitude := st.amplitude, pm,
          previous0 := st.previous0, previous1 := st.previous1 }
      { phase := inner.phase, amplitude := inner.amplitude,
        previous0 := inner.previous0, previous1 := inner.previous1,
        out := st.out.set sampleIdx
          (if ADDITIVE then st.out.getD sampleIdx 0 + inner.pm else inner.pm) })
    { phase, amplitude, previous0, previous1, out }
  let opsOut := ops.mapIdx fun i op =>
    if i < N then { phase := final.phase.getD i 0, amplitude := final.amplitude.getD i 0 }
    else op
  let fbOut := if 0 ≤ MODULATION_SOURCE then (final.previous0, final.previous1) else fbState
  (opsOut, fbOut, final.out)

/-! ### LFO (fm/lfo.js)

The sample-and-hold random draws of the source call getFloat from
stmlib/random.js, which is not among the repository's source files.
Modelled from the spec: a thread-local PRNG uniform over [0,1),
seedable; it appears as an explicit stream `prng : ℕ → ℚ` together with
a draw counter that advances exactly when the source draws. -/

/-- Waveform codes (lfo.js Waveform): Triangle 0, RampDown 1, RampUp 2,
Square 3, Sine 4, SAndH 5. -/
def waveformFromU8 (value : ℕ) : ℕ :=
  match value with
  | 1 => 1
  | 2 => 2
  | 3 => 3
  | 4 => 4
  | 5 => 5
  | _ => 0

/-- DX7-style LFO state (lfo.js Lfo). -/
structure Lfo where
  phase : ℚ
  frequency : ℚ
  delayPhase : ℚ
  delayIncrement0 : ℚ
  delayIncrement1 : ℚ
  value_ : ℚ
  randomValue : ℚ
  oneHz : ℚ
  ampModDepth : ℚ
  pitchModDepth : ℚ
  waveform : ℕ
  resetPhase : Bool
  phaseIntegral : ℤ

/-- Lfo.init. -/
def Lfo.init (sampleRate : ℚ) : Lfo :=
  { phase := 0.0, frequency := 0.1, delayPhase := 0.0,
    delayIncrement0 := 0.1, delayIncrement1 := 0.1,
    randomValue := 0.0, value_ := 0.0, oneHz := 1.0 / sampleRate,
    ampModDepth := 0.0, pitchModDepth := 0.0,
    waveform := 0, resetPhase := false, phaseIntegral := 0 }

/-- Lfo.value: current value from the waveform table. -/
def Lfo.value (l : Lfo) (lutSine : ℕ → ℚ) : ℚ :=
  match l.waveform with
  | 0 => 2.0 * (if l.phase < 0.5 then 0.5 - l.phase else l.phase - 0.5)
  | 1 => 1.0 - l.phase
  | 2 => l.phase
  | 3 => if l.phase < 0.5 then 0.0 else 1.0
  | 4 => 0.5 + 0.5 * sine lutSine (l.phase + 0.5)
  | 5 => l.randomValue
  | _ => 0.0

/-- Lfo.set: configuration from patch modulation parameters. -/
def Lfo.set (l : Lfo) (modulations : ModulationParameters) : Lfo :=
  { l with
    frequency := lfoFrequency modulations.rate * l.oneHz,
    delayIncrement0 := (lfoDelay modulations.delay).1 * l.oneHz,
    delayIncrement1 := (lfoDelay modulations.delay).2 * l.oneHz,
    waveform := waveformFromU8 modulations.waveform,
    resetPhase := modulations.resetPhase != 0,
    ampModDepth := (modulations.ampModDepth : ℚ) * 0.01,
    pitchModDepth := (modulations.pitchModDepth : ℚ) * 0.01
      * pitchModSensitivity modulations.pitchModSensitivity }

/-- Lfo.reset. -/
def Lfo.reset (l : Lfo) : Lfo :=
  { l with phase := if l.resetPhase then 0.0 else l.phase, delayPhase := 0.0 }

/-- Lfo.step: advance by one scaled step; a fresh random value is drawn
from the stream exactly when the phase wraps. -/
def Lfo.step (l : Lfo) (lutSine : ℕ → ℚ) (prng : ℕ → ℚ) (ctr : ℕ) (scale : ℚ) :
    Lfo × ℕ :=
  let phase := l.phase + scale * l.frequency
  let wrapped := 1.0 ≤ phase
  let phase := if wrapped then phase - 1.0 else phase
  let randomValue := if wrapped then prng ctr else l.randomValue
  let ctr := if wrapped then ctr + 1 else ctr
  let l := { l with phase, randomValue }
  let l := { l with value_ := l.value lutSine }
  let delayPhase := l.delayPhase
    + scale * (if l.delayPhase < 0.5 then l.delayIncrement0 else l.delayIncrement1)
  let delayPhase := if 1.0 ≤ delayPhase then 1.0 else delayPhase
  ({ l with delayPhase }, ctr)

/-- Lfo.delayRamp. -/
def Lfo.delayRamp (l : Lfo) : ℚ :=
  if l.delayPhase < 0.5 then 0.0 else (l.delayPhase - 0.5) * 2.0

/-- Lfo.pitchMod. -/
def Lfo.pitchMod (l : Lfo) : ℚ :=
  (l.value_ - 0.5) * l.delayRamp * l.pitchModDepth

/-- Lfo.ampMod. -/
def Lfo.ampMod (l : Lfo) : ℚ :=
  (1.0 - l.value_) * l.delayRamp * l.ampModDepth

/-! ### Algorithms (fm/algorithms.js) -/

def DESTINATION_MASK : ℕ := 0x03
def SOURCE_MASK : ℕ := 0x30
def SOURCE_FEEDBACK : ℕ := 0x30
def ADDITIVE_FLAG : ℕ := 0x04
def FEEDBACK_SOURCE_FLAG : ℕ := 0x40

/-- Opcode construction helpers (algorithms.js). -/
def modFlags (n : ℕ) : ℕ := n <<< 4

def addFlags (n : ℕ) : ℕ := n ||| ADDITIVE_FLAG

def outFlags (n : ℕ) : ℕ := n

def FB_SRC : ℕ := FEEDBACK_SOURCE_FLAG
def FB_DST : ℕ := modFlags 3
def FB : ℕ := FB_SRC ||| FB_DST
def NO_MOD : ℕ := modFlags 0
def OUTPUT : ℕ := addFlags 0

/-- The 32 six-operator DX7 algorithm opcode rows (OPCODES_6). -/
def OPCODES_6 : List (List ℕ) := [
  [FB ||| outFlags 1, modFlags 1 ||| outFlags 1, modFlags 1 ||| outFlags 1, modFlags 1 ||| OUTPUT, NO_MOD ||| outFlags 1, modFlags 1 ||| addFlags 0],
  [NO_MOD ||| outFlags 1, modFlags 1 ||| outFlags 1, modFlags 1 ||| outFlags 1, modFlags 1 ||| OUTPUT, FB ||| outFlags 1, modFlags 1 ||| addFlags 0],
  [FB ||| outFlags 1, modFlags 1 ||| outFlags 1, modFlags 1 ||| OUTPUT, NO_MOD ||| outFlags 1, modFlags 1 ||| outFlags 1, modFlags 1 ||| addFlags 0],
  [FB_DST ||| NO_MOD ||| outFlags 1, modFlags 1 ||| outFlags 1, FB_SRC ||| modFlags 1 ||| OUTPUT, NO_MOD ||| outFlags 1, modFlags 1 ||| outFlags 1, modFlags 1 ||| addFlags 0],
  [FB ||| outFlags 1, modFlags 1 ||| OUTPUT, NO_MOD ||| outFlags 1, modFlags 1 ||| addFlags 0, NO_MOD ||| outFlags 1, modFlags 1 ||| addFlags 0],
  [FB_DST ||| NO_MOD ||| outFlags 1, FB_SRC ||| modFlags 1 ||| OUTPUT, NO_MOD ||| outFlags 1, modFlags 1 ||| addFlags 0, NO_MOD ||| outFlags 1, modFlags 1 ||| addFlags 0],
  [FB ||| outFlags 1, modFlags 1 ||| outFlags 1, NO_MOD ||| addFlags 1, modFlags 1 ||| OUTPUT, NO_MOD ||| outFlags 1, modFlags 1 ||| addFlags 0],
  [NO_MOD ||| outFlags 1, modFlags 1 ||| outFlags 1, FB ||| addFlags 1, modFlags 1 ||| OUTPUT, NO_MOD ||| outFlags 1, modFlags 1 ||| addFlags 0],
  [NO_MOD ||| outFlags 1, modFlags 1 ||| outFlags 1, NO_MOD ||| addFlags 1, modFlags 1 ||| OUTPUT, FB ||| outFlags 1, modFlags 1 ||| addFlags 0],
  [NO_MOD ||| outFlags 1, NO_MOD ||| addFlags 1, modFlags 1 ||| OUTPUT, FB ||| outFlags 1, modFlags 1 ||| outFlags 1, modFlags 1 ||| addFlags 0],
  [FB ||| outFlags 1, NO_MOD ||| addFlags 1, modFlags 1 ||| OUTPUT, NO_MOD ||| outFlags 1, modFlags 1 ||| outFlags 1, modFlags 1 ||| addFlags 0],
  [NO_MOD ||| outFlags 1, NO_MOD ||| addFlags 1, NO_MOD ||| addFlags 1, modFlags 1 ||| OUTPUT, FB ||| outFlags 1, modFlags 1 ||| addFlags 0],
  [FB ||| outFlags 1, NO_MOD ||| addFlags 1, NO_MOD ||| addFlags 1, modFlags 1 ||| OUTPUT, NO_MOD ||| outFlags 1, modFlags 1 ||| addFlags 0],
  [FB ||| outFlags 1, NO_MOD ||| addFlags 1, modFlags 1 ||| outFlags 1, modFlags 1 ||| OUTPUT, NO_MOD ||| outFlags 1, modFlags 1 ||| addFlags 0],
  [NO_MOD ||| outFlags 1, NO_MOD ||| addFlags 1, modFlags 1 ||| outFlags 1, modFlags 1 ||| OUTPUT, FB ||| outFlags 1, modFlags 1 ||| addFlags 0],
  [FB ||| outFlags 1, modFlags 1 ||| outFlags 1, NO_MOD ||| outFlags 2, modFlags 2 ||| addFlags 1, NO_MOD ||| addFlags 1, modFlags 1 ||| OUTPUT],
  [NO_MOD ||| outFlags 1, modFlags 1 ||| outFlags 1, NO_MOD ||| outFlags 2, modFlags 2 ||| addFlags 1, FB ||| addFlags 1, modFlags 1 ||| OUTPUT],
  [NO_MOD ||| outFlags 1, modFlags 1 ||| outFlags 1, modFlags 1 ||| outFlags 1, FB ||| addFlags 1, NO_MOD ||| addFlags 1, modFlags 1 ||| OUTPUT],
  [FB ||| outFlags 1, modFlags 1 ||| OUTPUT, modFlags 1 ||| addFlags 0, NO_MOD ||| outFlags 1, modFlags 1 ||| outFlags 1, modFlags 1 ||| addFlags 0],
  [NO_MOD ||| outFlags 1, NO_MOD ||| addFlags 1, modFlags 1 ||| OUTPUT, FB ||| outFlags 1, modFlags 1 ||| addFlags 0, modFlags 1 ||| addFlags 0],
  [NO_MOD ||| outFlags 1, modFlags 1 ||| OUTPUT, modFlags 1 ||| addFlags 0, FB ||| outFlags 1, modFlags 1 ||| addFlags 0, modFlags 1 ||| addFlags 0],
  [FB ||| outFlags 1, modFlags 1 ||| OUTPUT, modFlags 1 ||| addFlags 0, modFlags 1 ||| addFlags 0, NO_MOD ||| outFlags 1, modFlags 1 ||| addFlags 0],
  [FB ||| outFlags 1, modFlags 1 ||| OUTPUT, modFlags 1 ||| addFlags 0, NO_MOD ||| outFlags 1, modFlags 1 ||| addFlags 0, NO_MOD ||| addFlags 0],
  [FB ||| outFlags 1, modFlags 1 ||| OUTPUT, modFlags 1 ||| addFlags 0, modFlags 1 ||| addFlags 0, NO_MOD ||| addFlags 0, NO_MOD ||| addFlags 0],
  [FB ||| outFlags 1, modFlags 1 ||| OUTPUT, modFlags 1 ||| addFlags 0, NO_MOD ||| addFlags 0, NO_MOD ||| addFlags 0, NO_MOD ||| addFlags 0],
  [FB ||| outFlags 1, NO_MOD ||| addFlags 1, modFlags 1 ||| OUTPUT, NO_MOD ||| outFlags 1, modFlags 1 ||| addFlags 0, NO_MOD ||| addFlags 0],
  [NO_MOD ||| outFlags 1, NO_MOD ||| addFlags 1, modFlags 1 ||| OUTPUT, FB ||| outFlags 1, modFlags 1 ||| addFlags 0, NO_MOD ||| addFlags 0],
  [NO_MOD ||| OUTPUT, FB ||| outFlags 1, modFlags 1 ||| outFlags 1, modFlags 1 ||| addFlags 0, NO_MOD ||| outFlags 1, modFlags 1 ||| addFlags 0],
  [FB ||| outFlags 1, modFlags 1 ||| OUTPUT, NO_MOD ||| outFlags 1, modFlags 1 ||| addFlags 0, NO_MOD ||| addFlags 0, NO_MOD ||| addFlags 0],
  [NO_MOD ||| OUTPUT, FB ||| outFlags 1, modFlags 1 ||| outFlags 1, modFlags 1 ||| addFlags 0, NO_MOD ||| addFlags 0, NO_MOD ||| addFlags 0],
  [FB ||| outFlags 1, modFlags 1 ||| OUTPUT, NO_MOD ||| addFlags 0, NO_MOD ||| addFlags 0, NO_MOD ||| addFlags 0, NO_MOD ||| addFlags 0],
  [FB ||| OUTPUT, NO_MOD ||| addFlags 0, NO_MOD ||| addFlags 0, NO_MOD ||| addFlags 0, NO_MOD ||| addFlags 0, NO_MOD ||| addFlags 0]]

/-- A pre-specialized renderer signature: the parameter triple of the
renderOperators factory (RendererSpecs without the closure). -/
structure RendererSpec where
  n : ℕ
  modulationSource : ℤ
  additive : Bool
  deriving Repr, DecidableEq

/-- RENDERERS_6: the available specializations, with the zero terminator
of the source table. -/
def RENDERERS_6 : List RendererSpec :=
  [⟨1, -2, false⟩, ⟨1, -2, true⟩, ⟨1, -1, false⟩, ⟨1, -1, true⟩,
   ⟨1, 0, false⟩, ⟨1, 0, true⟩, ⟨3, 2, true⟩, ⟨2, 1, true⟩, ⟨0, 0, false⟩]

/-- Algorithms.getRenderer: linear search with the n = 0 terminator. -/
def getRendererLoop (n : ℕ) (modulationSource : ℤ) (additive : Bool) :
    List RendererSpec → Option RendererSpec
  | [] => none
  | spec :: rest =>
    if spec.n = 0 then none
    else if spec.n = n ∧ spec.modulationSource = modulationSource
        ∧ spec.additive = additive then some spec
    else getRendererLoop n modulationSource additive rest

def getRenderer (n : ℕ) (modulationSource : ℤ) (additive : Bool) : Option RendererSpec :=
  getRendererLoop n modulationSource additive RENDERERS_6

/-- RenderCall: renderer triple, chain length, input and output buffer
indices.  The default is the source's RenderCall() constructor. -/
structure RenderCall where
  renderFn : RendererSpec
  n : ℕ
  inputIndex : ℕ
  outputIndex : ℕ
  deriving Repr, DecidableEq

def RenderCall.default : RenderCall :=
  { renderFn := ⟨1, -1, false⟩, n := 0, inputIndex := 0, outputIndex := 0 }

/-- The chain-detection inner while loop of Algorithms.compile. -/
def chainLengthLoop (opcodes : ℕ → ℕ) (i : ℕ) (n : ℕ) : ℕ :=
  if i + n < 6 then
    let fromOp := opcodes (i + n - 1)
    let toBuf := (opcodes (i + n) &&& SOURCE_MASK) >>> 4
    let hasAdditive := fromOp &&& ADDITIVE_FLAG ≠ 0
    let broken := (fromOp &&& DESTINATION_MASK) ≠ toBuf
    if hasAdditive ∨ broken then
      if toBuf = opcodes i &&& DESTINATION_MASK then 1 else n
    else chainLengthLoop opcodes i (n + 1)
  else n
  termination_by 6 - (i + n)

/-- The modulation-source computation of Algorithms.compile: -1 for no
modulation, -2 for an external buffer, else the last chain position
carrying the feedback-source flag (-3 when none). -/
def chainModulationSource (opcodes : ℕ → ℕ) (i n : ℕ) : ℤ :=
  if opcodes i &&& SOURCE_MASK = 0 then -1
  else if opcodes i &&& SOURCE_MASK ≠ SOURCE_FEEDBACK then -2
  else (List.range n).foldl
    (fun acc j => if opcodes (i + j) &&& FEEDBACK_SOURCE_FLAG ≠ 0 then (j : ℤ) else acc)
    (-3)

/-- One attempt of Algorithms.compile: look up a renderer for the chain
of length n starting at operator i and build its RenderCall. -/
def compileAttempt (opcodes : ℕ → ℕ) (i n : ℕ) : Option RenderCall :=
  let outOpcode := opcodes (i + n - 1)
  let additive := outOpcode &&& ADDITIVE_FLAG ≠ 0
  (getRenderer n (chainModulationSource opcodes i n) additive).map fun spec =>
    { renderFn := spec, n := n,
      inputIndex := (opcodes i &&& SOURCE_MASK) >>> 4,
      outputIndex := outOpcode &&& DESTINATION_MASK }

/-- The two-attempt loop of Algorithms.compile: retry with n = 1 when no
specialized renderer exists for the detected chain. -/
def compileAt (opcodes : ℕ → ℕ) (i : ℕ) : Option RenderCall × ℕ :=
  let n := chainLengthLoop opcodes i 1
  match compileAttempt opcodes i n with
  | some rc => (some rc, n)
  | none =>
    if 1 < n then
      match compileAttempt opcodes i 1 with
      | some rc => (some rc, 1)
      | none => (none, 1)
    else (none, n)

theorem chainLengthLoop_pos (opcodes : ℕ → ℕ) (i : ℕ) :
    ∀ k n, 6 - (i + n) = k → 1 ≤ n → 1 ≤ chainLengthLoop opcodes i n := by
  intro k
  induction k with
  | zero =>
    intro n hk hn
    rw [chainLengthLoop]
    dsimp only
    split_ifs <;> omega
  | succ k ih =>
    intro n hk hn
    rw [chainLengthLoop]
    dsimp only
    split_ifs <;> first
      | omega
      | exact ih (n + 1) (by omega) (by omega)

theorem compileAt_snd_pos (opcodes : ℕ → ℕ) (i : ℕ) : 1 ≤ (compileAt opcodes i).2 := by
  have h := chainLengthLoop_pos opcodes i (6 - (i + 1)) 1 rfl (by omega)
  unfold compileAt
  split <;> simp_all <;> split_ifs <;> first | omega | (split <;> simp_all)

/-- The outer operator loop of Algorithms.compile, advancing by each
chain's final length and recording the successful RenderCalls. -/
def compileLoop (opcodes : ℕ → ℕ) (i : ℕ) (calls : ℕ → RenderCall) : ℕ → RenderCall :=
  if i < 6 then
    let r := compileAt opcodes i
    let calls := match r.1 with
      | some rc => fun j => if j = i then rc else calls j
      | none => calls
    compileLoop opcodes (i + r.2) calls
  else calls
  termination_by 6 - i
  decreasing_by
    have := compileAt_snd_pos opcodes i
    omega

/-- The opcode row of an algorithm, as an index function. -/
def opcodesAt (algorithm : ℕ) : ℕ → ℕ :=
  fun j => (OPCODES_6.getD algorithm []).getD j 0

/-- The compiled render-call table of one algorithm
(Algorithms.renderCall after Algorithms.compile). -/
def algorithmsRenderCalls (algorithm : ℕ) : ℕ → RenderCall :=
  compileLoop (opcodesAt algorithm) 0 (fun _ => RenderCall.default)

/-- Algorithms.isModulator: the opcode's destination field is nonzero. -/
def isModulator (algorithm op : ℕ) : Bool :=
  (opcodesAt algorithm op &&& DESTINATION_MASK) != 0

/-! ### Voice (fm/voice.js) -/

/-- Voice parameters for rendering (voice.js Parameters), with the
constructor defaults. -/
structure Parameters where
  sustain : Bool := false
  gate : Bool := false
  note : ℚ := 48.0
  velocity : ℚ := 0.5
  brightness : ℚ := 0.5
  envelopeControl : ℚ := 0.5
  pitchMod : ℚ := 0.0
  ampMod : ℚ := 0.0
  deriving Repr, DecidableEq

/-- DX7 FM voice state (voice.js Voice).  The four render buffers are
passed to renderInternal as a region store plus a slot-to-region map, so
that renderTemp's aliased third and fourth buffer slots share one
region. -/
structure Voice where
  sampleRate : ℚ
  oneHz : ℚ
  a0 : ℚ
  gate : Bool
  operator : List Operator
  operatorEnvelope : List Env
  pitchEnvelope : Env
  normalizedVelocity : ℚ
  note : ℚ
  ratios : List ℚ
  levelHeadroom : List ℚ
  level : List ℚ
  feedbackState : ℚ × ℚ
  patch : Patch
  dirty : Bool

/-- Voice.setup: pre-computes patch-dependent data when dirty, returning
the updated voice and whether it ran. -/
def Voice.setup (pw : ℚ → ℚ) (v : Voice) : Voice × Bool :=
  if ¬ v.dirty then (v, false)
  else
    let pitchEnvelope := pitchEnvelopeSet v.pitchEnvelope
      v.patch.pitchEnvelope.rate v.patch.pitchEnvelope.level
    let operatorEnvelope := v.operatorEnvelope.mapIdx fun i e =>
      if i < 6 then
        let op := v.patch.op.getD i PatchOperator.default
        operatorEnvelopeSet e op.envelope.rate op.envelope.level (operatorLevel op.level)
      else e
    let levelHeadroom := v.levelHeadroom.mapIdx fun i x =>
      if i < 6 then
        let op := v.patch.op.getD i PatchOperator.default
        127.0 - ((operatorLevel op.level : ℕ) : ℚ)
      else x
    let ratios := v.ratios.mapIdx fun i x =>
      if i < 6 then
        let op := v.patch.op.getD i PatchOperator.default
        (if op.mode = 0 then 1.0 else -1.0) * frequencyRatio pw op
      else x
    ({ v with pitchEnvelope, operatorEnvelope, levelHeadroom, ratios, dirty := false },
     true)

/-- Voice constructor: fresh operators and envelopes at the native
44100/sampleRate scale, then setup. -/
def Voice.new (pw : ℚ → ℚ) (patch : Patch) (sampleRate : ℚ) : Voice :=
  let oneHz := 1.0 / sampleRate
  let envelopeScale := 44100.0 * oneHz
  let base : Voice :=
    { sampleRate, oneHz, a0 := 55.0 / sampleRate, gate := false,
      operator := List.replicate 6 (Operator.reset default),
      operatorEnvelope := List.replicate 6 (Env.init 4 true envelopeScale),
      pitchEnvelope := Env.init 4 false envelopeScale,
      normalizedVelocity := 10.0, note := 48.0,
      ratios := List.replicate 6 0.0, levelHeadroom := List.replicate 6 0.0,
      level := List.replicate 6 0.0, feedbackState := (0.0, 0.0),
      patch, dirty := true }
  (Voice.setup pw base).1

/-- The per-operator target frequency of Voice.renderInternal:
`f[i] = ratios[i] * (ratios[i] < 0 ? -oneHz : f0)`. -/
def operatorFrequency (v : Voice) (f0 : ℚ) (i : ℕ) : ℚ :=
  v.ratios.getD i 0 * (if v.ratios.getD i 0 < 0 then -v.oneHz else f0)

/-- One iteration of renderInternal's per-operator loop (the iterations
are independent: iteration i touches only envelope i).  Returns the
updated operator envelope, f[i], a[i], and the stored level. -/
def voiceOperatorStep (pw : ℚ → ℚ) (v : Voice) (p : Parameters)
    (f0 envelopeRate adScale rScale envelopeSample gateDuration : ℚ) (i : ℕ) :
    Env × ℚ × ℚ × ℚ :=
  let op := v.patch.op.getD i PatchOperator.default
  let fI := operatorFrequency v f0 i
  let env := v.operatorEnvelope.getD i (Env.init 4 true 1.0)
  let rateScalingVal := rateScaling pw v.note op.rateScaling
  let er := if p.sustain
    then (env, env.renderAtSample envelopeSample gateDuration)
    else env.renderScaled p.gate (envelopeRate * rateScalingVal) adScale rScale
  let kbScaling := keyboardScaling v.note op.keyboardScaling
  let velocityScaling := v.normalizedVelocity * (op.velocitySensitivity : ℚ)
  let brightness := if isModulator v.patch.algorithm i
    then (p.brightness - 0.5) * 32.0 else 0.0
  let levelAdjusted := er.2
    + 0.125 * min (kbScaling + velocityScaling + brightness) (v.levelHeadroom.getD i 0)
  let sensitivity := ampModSensitivity op.ampModSensitivity
  let logLevelMod := sensitivity * p.ampMod - 1.0
  let levelMod := 1.0 - pow2Fast pw (6.4 * logLevelMod) 2
  let aI := pow2Fast pw (-14.0 + levelAdjusted * levelMod) 2
  (er.1, fI, aI, levelAdjusted)

/-- The routing-plan dispatch loop of renderInternal.  The fuel bound of
six is the operator count: every compiled call advances i by at least
one; a zero-length default call (never produced by the compiled tables)
would loop forever in the source. -/
def dispatchLoop (lutSine : ℕ → ℚ) (calls : ℕ → RenderCall) (feedback : ℕ)
    (regionOf : ℕ → ℕ) :
    ℕ → ℕ → List Operator → List ℚ → List ℚ → (ℚ × ℚ) → List (List ℚ) →
    List Operator × (ℚ × ℚ) × List (List ℚ)
  | 0, _, ops, _, _, fb, store => (ops, fb, store)
  | fuel + 1, i, ops, f, a, fb, store =>
    if i < 6 then
      let call := calls i
      let opsSlice := (ops.drop i).take call.n
      let fSlice := (f.drop i).take call.n
      let aSlice := (a.drop i).take call.n
      let inputBuffer := store.getD (regionOf call.inputIndex) []
      let outputBuffer := store.getD (regionOf call.outputIndex) []
      let r := renderOperators lutSine call.renderFn.n call.renderFn.modulationSource
        call.renderFn.additive opsSlice fSlice aSlice fb feedback inputBuffer outputBuffer
      let ops := ops.mapIdx fun j op =>
        if i ≤ j ∧ j < i + call.n then r.1.getD (j - i) op else op
      let store := store.set (regionOf call.outputIndex) r.2.2
      dispatchLoop lutSine calls feedback regionOf fuel (i + call.n) ops f a r.2.1 store
    else (ops, fb, store)

/-- Voice.renderInternal: one block.  `store` holds the distinct buffer
regions and `regionOf` maps the four buffer slots onto them. -/
def Voice.renderInternal (pw : ℚ → ℚ) (lutSine : ℕ → ℚ) (v : Voice) (p : Parameters)
    (regionOf : ℕ → ℕ) (store : List (List ℚ)) (size : ℕ) :
    Voice × List (List ℚ) :=
  let s := Voice.setup pw v
  if s.2 then (s.1, store)
  else
    let v := s.1
    let envelopeRate : ℚ := (size : ℚ)
    let adScale := pow2Fast pw ((0.5 - p.envelopeControl) * 8.0) 1
    let rScale := pow2Fast pw (-|p.envelopeControl - 0.3| * 8.0) 1
    let gateDuration := 1.5 * v.sampleRate
    let envelopeSample := gateDuration * p.envelopeControl
    let inputNote := p.note - 24.0 + (v.patch.transpose : ℚ)
    let per := if p.sustain
      then (v.pitchEnvelope, v.pitchEnvelope.renderAtSample envelopeSample gateDuration)
      else v.pitchEnvelope.renderScaled p.gate envelopeRate adScale rScale
    let pitchMod := per.2 + p.pitchMod
    let f0 := v.a0 * 0.25 * semitonesToRatioSafe pw (inputNote - 9.0 + pitchMod * 12.0)
    let noteOn := p.gate && ! v.gate
    let v := { v with gate := p.gate, pitchEnvelope := per.1 }
    let v := if noteOn || p.sustain then
        { v with normalizedVelocity := normalizeVelocity p.velocity, note := inputNote }
      else v
    let v := if noteOn && (v.patch.resetPhase != 0) then
        { v with operator := v.operator.map fun o => { o with phase := 0 } }
      else v
    let results := (List.range 6).map fun i =>
      voiceOperatorStep pw v p f0 envelopeRate adScale rScale envelopeSample gateDuration i
    let f := results.map fun r => r.2.1
    let a := results.map fun r => r.2.2.1
    let v := { v with
      operatorEnvelope := v.operatorEnvelope.mapIdx fun i e =>
        if i < 6 then (results.getD i (e, 0, 0, 0)).1 else e,
      level := v.level.mapIdx fun i x =>
        if i < 6 then (results.getD i (Env.init 4 true 1.0, 0, 0, x)).2.2.2 else x }
    let d := dispatchLoop lutSine (algorithmsRenderCalls v.patch.algorithm)
      v.patch.feedback regionOf 6 0 v.operator f a v.feedbackState store
    ({ v with operator := d.1, feedbackState := d.2.1 }, d.2.2)

/-- Voice.renderTemp: renders into thirds of one temp buffer; the third
and fourth buffer slots are the same subarray, so both map to region 2. -/
def Voice.renderTemp (pw : ℚ → ℚ) (lutSine : ℕ → ℚ) (v : Voice) (p : Parameters)
    (temp : List ℚ) : Voice × List (List ℚ) :=
  let size := temp.length / 3
  let store := [temp.take size, (temp.drop size).take size, (temp.drop (2 * size)).take size]
  Voice.renderInternal pw lutSine v p (fun s => if s = 3 then 2 else s) store size

/-! ### Sample generation (dx7.js generateSamples) -/

/-- The running state of generateSamples: the voice, the LFO, and the
PRNG draw counter. -/
structure GenState where
  voice : Voice
  lfo : Lfo
  ctr : ℕ

/-- One block of generateSamples: step the LFO by the block size, feed
its pitch/amp modulation into the parameters, render, and return the
first blockSize samples of the output region. -/
def genStep (pw : ℚ → ℚ) (lutSine : ℕ → ℚ) (prng : ℕ → ℚ) (gate : Bool)
    (midiNote : ℚ) (s : GenState) (blockSize : ℕ) : GenState × List ℚ :=
  let lr := s.lfo.step lutSine prng s.ctr (blockSize : ℚ)
  let params : Parameters :=
    { gate, sustain := false, velocity := 1.0, note := midiNote,
      brightness := 0.5, envelopeControl := 0.5,
      pitchMod := lr.1.pitchMod, ampMod := lr.1.ampMod }
  let vr := s.voice.renderTemp pw lutSine params (List.replicate (blockSize * 3) 0.0)
  (⟨vr.1, lr.1, lr.2⟩, vr.2.getD 0 [])

/-- Phase 1 of generateSamples: render gate-held blocks of at most 24
samples until the requested duration is filled, pushing exactly
blockSize samples per block. -/
def phase1Loop {σ : Type} (stepB : σ → ℕ → σ × List ℚ) (s : σ) (remaining : ℕ)
    (out : List ℚ) : σ × List ℚ :=
  if remaining = 0 then (s, out)
  else
    let blockSize := min remaining 24
    let r := stepB s blockSize
    phase1Loop stepB r.1 (remaining - blockSize)
      (out ++ (List.range blockSize).map fun i => r.2.getD i 0)
  termination_by remaining
  decreasing_by omega

/-- The silence counter and push of generateSamples phase 2: a sample of
absolute value below the threshold extends the run of consecutive
silent samples, any other sample resets it. -/
def pushSample (acc : ℕ × List ℚ) (x : ℚ) : ℕ × List ℚ :=
  (if |x| < 0.0001 then acc.1 + 1 else 0, acc.2 ++ [x])

theorem pushSample_foldl_len (l : List ℚ) :
    ∀ c o, ((l.foldl pushSample (c, o)).2).length = o.length + l.length := by
  induction l with
  | nil => intro c o; simp
  | cons x rest ih =>
    intro c o
    rw [List.foldl_cons]
    have := ih (if |x| < 0.0001 then c + 1 else 0) (o ++ [x])
    simp [pushSample] at this ⊢
    split_ifs at this ⊢ <;> simp_all <;> omega

theorem pushSample_foldl_consec (l : List ℚ) :
    ∀ c o, (l.foldl pushSample (c, o)).1 ≤ c + l.length := by
  induction l with
  | nil => intro c o; simp
  | cons x rest ih =>
    intro c o
    rw [List.foldl_cons]
    have h1 := ih (if |x| < 0.0001 then c + 1 else 0) (o ++ [x])
    simp only [pushSample]
    split_ifs at h1 ⊢ <;> simp [List.length_cons] <;> omega

/-- Phase 2 of generateSamples: render 24-sample release blocks until
100 ms of consecutive silence (truncating the run back to the silence
threshold) or until the total length passes sampleRate * 10. -/
def phase2Loop {σ : Type} (stepB : σ → ℕ → σ × List ℚ) (sampleRate silenceDur : ℕ)
    (s : σ) (consec : ℕ) (out : List ℚ) : List ℚ :=
  let r := stepB s 24
  let samples := (List.range 24).map fun i => r.2.getD i 0
  let co := samples.foldl pushSample (consec, out)
  if silenceDur ≤ co.1 then
    co.2.take (co.2.length - (co.1 - silenceDur))
  else if sampleRate * 10 < co.2.length then
    co.2
  else
    phase2Loop stepB sampleRate silenceDur r.1 co.1 co.2
  termination_by sampleRate * 10 + 24 - out.length
  decreasing_by
    have hlen : (List.foldl pushSample (consec, out)
        (List.map (fun i => (stepB s 24).2.getD i 0) (List.range 24))).2.length
        = out.length + 24 := by
      have h := pushSample_foldl_len
        ((List.range 24).map fun i => (stepB s 24).2.getD i 0) consec out
      simpa using h
    have hlen2 : co.2.length = out.length + 24 := hlen
    omega

/-- generateSamples (dx7.js): gate-held rendering for the requested
duration, then release rendering until 100 ms of silence or the
10-second safety check. -/
def generateSamples (pw : ℚ → ℚ) (lutSine : ℕ → ℚ) (prng : ℕ → ℚ) (patch : Patch)
    (midiNote : ℚ) (sampleRate : ℕ) (durationMs : ℕ) : List ℚ :=
  let nSamples := durationMs * sampleRate / 1000
  let silenceDurationSamples := sampleRate * 100 / 1000
  let voice := Voice.new pw patch (sampleRate : ℚ)
  let lfo := ((Lfo.init (sampleRate : ℚ)).set patch.modulations).reset
  let p1 := phase1Loop (genStep pw lutSine prng true midiNote) ⟨voice, lfo, 0⟩ nSamples []
  phase2Loop (genStep pw lutSine prng false midiNote) sampleRate silenceDurationSamples
    p1.1 0 p1.2

/-- The per-block driver over an arbitrary parameter sequence: step the
LFO (drawing from the PRNG stream), feed its modulation outputs into the
block parameters, render the block, collect the output region (the
wiring of generateSamples, over a given parameter list). -/
def renderSequence (pw : ℚ → ℚ) (lutSine : ℕ → ℚ) (prng : ℕ → ℚ) (v : Voice)
    (l : Lfo) (ctr : ℕ) (ps : List Parameters) (blockSize : ℕ) :
    (Voice × Lfo × ℕ) × List ℚ :=
  ps.foldl (fun acc p =>
    let lr := acc.1.2.1.step lutSine prng acc.1.2.2 (blockSize : ℚ)
    let p := { p with pitchMod := lr.1.pitchMod, ampMod := lr.1.ampMod }
    let vr := acc.1.1.renderTemp pw lutSine p (List.replicate (blockSize * 3) 0.0)
    ((vr.1, lr.1, lr.2),
      acc.2 ++ (List.range blockSize).map fun i => (vr.2.getD 0 []).getD i 0))
    ((v, l, ctr), [])

/-- getD through mapIdx. -/
theorem mapIdx_getD {α : Type} (l : List α) (f : ℕ → α → α) (i : ℕ) (d : α)
    (h : i < l.length) :
    (l.mapIdx f).getD i d = f i (l.getD i d) := by
  have h2 : i < (l.mapIdx f).length := by
    rw [List.length_mapIdx]
    exact h
  rw [List.getD_eq_getElem?_getD, List.getElem?_eq_getElem h2,
    List.getD_eq_getElem?_getD, List.getElem?_eq_getElem h]
  simp only [Option.getD_some]
  have hg := List.get_mapIdx l f i h
  simp only [List.get_eq_getElem] at hg
  exact hg

theorem mapIdx_getD_of_ge {α : Type} (l : List α) (f : ℕ → α → α) (i : ℕ) (d : α)
    (h : ¬ i < l.length) :
    (l.mapIdx f).getD i d = d := by
  have h2 : ¬ i < (l.mapIdx f).length := by
    rw [List.length_mapIdx]
    exact h
  rw [List.getD_eq_getElem?_getD, List.getElem?_eq_none (by omega)]
  rfl

/-- OperatorEnvelope.set touches only the level and increment arrays. -/
theorem operatorEnvelopeSet_stage_phase (e : Env) (r l : List ℕ) (g : ℕ) :
    (operatorEnvelopeSet e r l g).stage = e.stage
      ∧ (operatorEnvelopeSet e r l g).phase = e.phase :=
  ⟨rfl, rfl⟩

/-- C10: when the voice is dirty, renderInternal runs setup and returns
immediately: the buffers are untouched, and setup leaves the operator
phases/amplitudes, the feedback state, the gate, the stored levels, and
every envelope stage and phase unchanged (it only rewrites envelope
increment/level tables, level headrooms and frequency ratios). -/
theorem renderInternal_dirty (pw : ℚ → ℚ) (lutSine : ℕ → ℚ) (v : Voice)
    (p : Parameters) (regionOf : ℕ → ℕ) (store : List (List ℚ)) (size : ℕ)
    (h : v.dirty = true) :
    Voice.renderInternal pw lutSine v p regionOf store size = ((Voice.setup pw v).1, store)
    ∧ (Voice.setup pw v).1.operator = v.operator
    ∧ (Voice.setup pw v).1.feedbackState = v.feedbackState
    ∧ (Voice.setup pw v).1.gate = v.gate
    ∧ (Voice.setup pw v).1.level = v.level
    ∧ (Voice.setup pw v).1.pitchEnvelope.stage = v.pitchEnvelope.stage
    ∧ (Voice.setup pw v).1.pitchEnvelope.phase = v.pitchEnvelope.phase
    ∧ ∀ i : ℕ,
        ((Voice.setup pw v).1.operatorEnvelope.getD i (Env.init 4 true 1.0)).stage
          = (v.operatorEnvelope.getD i (Env.init 4 true 1.0)).stage
        ∧ ((Voice.setup pw v).1.operatorEnvelope.getD i (Env.init 4 true 1.0)).phase
          = (v.operatorEnvelope.getD i (Env.init 4 true 1.0)).phase := by
  have hs2 : (Voice.setup pw v).2 = true := by
    simp [Voice.setup, h]
  refine ⟨?_, ?_, ?_, ?_, ?_, ?_, ?_, ?_⟩
  · simp only [Voice.renderInternal, hs2, if_true]
  · simp [Voice.setup, h]
  · simp [Voice.setup, h]
  · simp [Voice.setup, h]
  · simp [Voice.setup, h]
  · simp [Voice.setup, h, pitchEnvelopeSet]
  · simp [Voice.setup, h, pitchEnvelopeSet]
  · intro i
    have hoe : (Voice.setup pw v).1.operatorEnvelope
        = v.operatorEnvelope.mapIdx fun i e =>
          if i < 6 then
            operatorEnvelopeSet e (v.patch.op.getD i PatchOperator.default).envelope.rate
              (v.patch.op.getD i PatchOperator.default).envelope.level
              (operatorLevel (v.patch.op.getD i PatchOperator.default).level)
          else e := by
      simp [Voice.setup, h]
    rw [hoe]
    by_cases hi : i < v.operatorEnvelope.length
    · rw [mapIdx_getD _ _ _ _ hi]
      split_ifs <;> exact ⟨rfl, rfl⟩
    · rw [mapIdx_getD_of_ge _ _ _ _ hi, List.getD_eq_default _ _ (by omega)]
      exact ⟨rfl, rfl⟩

/-- A concrete dirty voice for the C10 witness. -/
def dirtyVoice : Voice :=
  { sampleRate := 44100.0, oneHz := 1.0 / 44100.0, a0 := 55.0 / 44100.0,
    gate := false, operator := List.replicate 6 (Operator.reset default),
    operatorEnvelope := List.replicate 6 (Env.init 4 true 1.0),
    pitchEnvelope := Env.init 4 false 1.0,
    normalizedVelocity := 10.0, note := 48.0,
    ratios := List.replicate 6 0.0, levelHeadroom := List.replicate 6 0.0,
    level := List.replicate 6 0.0, feedbackState := (0.0, 0.0),
    patch := Patch.default, dirty := true }

/-- C10 witness: the dirty-return theorem at a concrete dirty voice. -/
theorem renderInternal_dirty_witness :
    dirtyVoice.dirty = true
    ∧ (Voice.renderInternal (fun _ => 0) (fun _ => 0) dirtyVoice {} id [] 0
        = ((Voice.setup (fun _ => 0) dirtyVoice).1, [])
      ∧ (Voice.setup (fun _ => 0) dirtyVoice).1.operator = dirtyVoice.operator
      ∧ (Voice.setup (fun _ => 0) dirtyVoice).1.feedbackState = dirtyVoice.feedbackState
      ∧ (Voice.setup (fun _ => 0) dirtyVoice).1.gate = dirtyVoice.gate
      ∧ (Voice.setup (fun _ => 0) dirtyVoice).1.level = dirtyVoice.level
      ∧ (Voice.setup (fun _ => 0) dirtyVoice).1.pitchEnvelope.stage
          = dirtyVoice.pitchEnvelope.stage
      ∧ (Voice.setup (fun _ => 0) dirtyVoice).1.pitchEnvelope.phase
          = dirtyVoice.pitchEnvelope.phase
      ∧ ∀ i : ℕ,
          ((Voice.setup (fun _ => 0) dirtyVoice).1.operatorEnvelope.getD i
              (Env.init 4 true 1.0)).stage
            = (dirtyVoice.operatorEnvelope.getD i (Env.init 4 true 1.0)).stage
          ∧ ((Voice.setup (fun _ => 0) dirtyVoice).1.operatorEnvelope.getD i
              (Env.init 4 true 1.0)).phase
            = (dirtyVoice.operatorEnvelope.getD i (Env.init 4 true 1.0)).phase) :=
  ⟨rfl, renderInternal_dirty (fun _ => 0) (fun _ => 0) dirtyVoice {} id [] 0 rfl⟩

/-- C9: rendering is call-pure.  All effects of the source are explicit
arguments of the embedding: the voice and LFO states thread through,
the PRNG of lfo.js (per the spec a seedable thread-local generator) is
the explicit stream `prng`, the sine table and library exponent are the
fixed platform functions `lutSine` and `pw`, and the buffers are passed
in the store.  Two invocations of the block-sequence driver from equal
patch/voice/LFO state and equal parameter sequences are therefore
bit-identical. -/
theorem render_call_pure (pw : ℚ → ℚ) (lutSine : ℕ → ℚ) (prng : ℕ → ℚ)
    (v₁ v₂ : Voice) (l₁ l₂ : Lfo) (c₁ c₂ : ℕ) (ps₁ ps₂ : List Parameters)
    (b₁ b₂ : ℕ) (hv : v₁ = v₂) (hl : l₁ = l₂) (hc : c₁ = c₂) (hp : ps₁ = ps₂)
    (hb : b₁ = b₂) :
    renderSequence pw lutSine prng v₁ l₁ c₁ ps₁ b₁
      = renderSequence pw lutSine prng v₂ l₂ c₂ ps₂ b₂ := by
  subst hv hl hc hp hb
  rfl

/-- C9 witness: two runs from the same concrete state. -/
theorem render_call_pure_witness :
    dirtyVoice = dirtyVoice
    ∧ renderSequence (fun _ => 0) (fun _ => 0) (fun _ => 0) dirtyVoice
        (Lfo.init 44100.0) 0 [{}] 24
      = renderSequence (fun _ => 0) (fun _ => 0) (fun _ => 0) dirtyVoice
        (Lfo.init 44100.0) 0 [{}] 24 :=
  ⟨rfl, render_call_pure (fun _ => 0) (fun _ => 0) (fun _ => 0) dirtyVoice dirtyVoice
    (Lfo.init 44100.0) (Lfo.init 44100.0) 0 0 [{}] [{}] 24 24 rfl rfl rfl rfl rfl⟩

/-- A concrete voice with a fixed-frequency (negative-ratio) operator 0. -/
def fixedRatioVoice : Voice :=
  { sampleRate := 44100.0, oneHz := 1.0 / 44100.0, a0 := 55.0 / 44100.0,
    gate := false, operator := List.replicate 6 (Operator.reset default),
    operatorEnvelope := List.replicate 6 (Env.init 4 true 1.0),
    pitchEnvelope := Env.init 4 false 1.0,
    normalizedVelocity := 10.0, note := 48.0,
    ratios := [-2.0, 1.0, 1.0, 1.0, 1.0, 1.0],
    levelHeadroom := List.replicate 6 0.0,
    level := List.replicate 6 0.0, feedbackState := (0.0, 0.0),
    patch := Patch.default, dirty := false }

/-- C4 counterexample: for the voice with ratios[0] = -2 at sample rate
44100, the frequency handed to the chain renderer is +2/44100, not the
claimed ratios[0] * (1/sampleRate) = -2/44100: the source multiplies by
-oneHz, taking the ratio magnitude. -/
theorem operatorFrequency_counterexample :
    fixedRatioVoice.ratios.getD 0 0 < 0
    ∧ operatorFrequency fixedRatioVoice 1.0 0
        ≠ fixedRatioVoice.ratios.getD 0 0 * (1.0 / fixedRatioVoice.sampleRate) := by
  constructor
  · norm_num [fixedRatioVoice]
  · norm_num [operatorFrequency, fixedRatioVoice]

/-- C4 (amended): in the per-block operator loop, a fixed-frequency
operator (ratios[i] < 0) is rendered at -ratios[i] * (1/sampleRate),
i.e. the ratio magnitude in Hz scaled by 1/sampleRate, and a ratio-mode
operator at ratios[i] * f0. -/
theorem operatorFrequency_formula (v : Voice) (f0 : ℚ) (i : ℕ)
    (h : v.oneHz = 1.0 / v.sampleRate) :
    (v.ratios.getD i 0 < 0
        → operatorFrequency v f0 i = -(v.ratios.getD i 0) * (1.0 / v.sampleRate))
    ∧ (¬ v.ratios.getD i 0 < 0 → operatorFrequency v f0 i = v.ratios.getD i 0 * f0) := by
  refine ⟨fun hr => ?_, fun hr => ?_⟩ <;> simp only [operatorFrequency]
  · rw [if_pos hr, h]
    ring
  · rw [if_neg hr]

/-- C4 witness: the formula at the concrete fixed-frequency voice. -/
theorem operatorFrequency_formula_witness :
    fixedRatioVoice.oneHz = 1.0 / fixedRatioVoice.sampleRate
    ∧ ((fixedRatioVoice.ratios.getD 0 0 < 0
        → operatorFrequency fixedRatioVoice 1.0 0
          = -(fixedRatioVoice.ratios.getD 0 0) * (1.0 / fixedRatioVoice.sampleRate))
      ∧ (¬ fixedRatioVoice.ratios.getD 0 0 < 0
        → operatorFrequency fixedRatioVoice 1.0 0 = fixedRatioVoice.ratios.getD 0 0 * 1.0)) :=
  ⟨rfl, operatorFrequency_formula fixedRatioVoice 1.0 0 rfl⟩

/-- Phase 1 pushes exactly the requested number of samples, whatever the
renderer returns. -/
theorem phase1Loop_length {σ : Type} (stepB : σ → ℕ → σ × List ℚ) :
    ∀ (remaining : ℕ) (s : σ) (out : List ℚ),
      (phase1Loop stepB s remaining out).2.length = out.length + remaining := by
  intro remaining
  induction remaining using Nat.strong_induction_on with
  | _ remaining ih =>
    intro s out
    rw [phase1Loop]
    dsimp only
    split_ifs with h
    · simp [h]
    · rw [ih (remaining - min remaining 24) (by omega)]
      simp only [List.length_append, List.length_map, List.length_range]
      omega

/-- Once the output already exceeds the sampleRate * 10 check, the first
release block ends phase 2, and even the silence truncation (which cuts
at most the 24 samples of that block, past the preserved silence
threshold) leaves the output longer than sampleRate * 10. -/
theorem phase2Loop_exceeds {σ : Type} (stepB : σ → ℕ → σ × List ℚ)
    (sampleRate silenceDur : ℕ) (s : σ) (out : List ℚ)
    (h : sampleRate * 10 < out.length) :
    sampleRate * 10 < (phase2Loop stepB sampleRate silenceDur s 0 out).length := by
  rw [phase2Loop]
  have hlen : (List.foldl pushSample (0, out)
      (List.map (fun i => (stepB s 24).2.getD i 0) (List.range 24))).2.length
      = out.length + 24 := by
    have h2 := pushSample_foldl_len
      ((List.range 24).map fun i => (stepB s 24).2.getD i 0) 0 out
    simpa using h2
  have hcons : (List.foldl pushSample (0, out)
      (List.map (fun i => (stepB s 24).2.getD i 0) (List.range 24))).1 ≤ 24 := by
    have h3 := pushSample_foldl_consec
      ((List.range 24).map fun i => (stepB s 24).2.getD i 0) 0 out
    simpa using h3
  split_ifs with h1 h2
  · rw [List.length_take]
    omega
  · exact h2
  · omega

/-- C3: the 10-second safety check does not cap the total output length.
With sample rate 10 and a requested duration of 200000 ms, the gate-held
phase alone renders 2000 samples, and the returned array is longer than
sampleRate * 10 = 100 samples for every patch, note, sine table,
exponent function and PRNG stream: the check runs only after a release
block is pushed, and the gate-held phase is never capped at all. -/
theorem generateSamples_cap_exceeded (pw : ℚ → ℚ) (lutSine : ℕ → ℚ) (prng : ℕ → ℚ)
    (patch : Patch) (midiNote : ℚ) :
    10 * 10 < (generateSamples pw lutSine prng patch midiNote 10 200000).length := by
  unfold generateSamples
  apply phase2Loop_exceeds
  rw [phase1Loop_length]
  norm_num

end Tv7
